import Mathlib

/-!
Shallow embedding of the DGraph-Lab3 bulk graph-loading pipeline
(src/model.py and src/main.py) together with proofs about the claims of
its specification.

The Python code talks to an external Dgraph engine through a client
contract (alter, txn, query, mutate, commit, discard).  The engine is
modelled abstractly by an oracle structure; everything the repository
itself computes (query-string construction, JSON-response decoding,
per-row relationship resolution, skip handling, orchestration, delete
logic, pagination fallback) is translated directly from the source.

Python exceptions are modelled with an explicit error type; functions
that may raise return a result that is either a value or an error.
Python None is modelled by Json.null whenever it flows out of decoded
JSON data.
-/

/-- Model of a decoded JSON value as produced by json.loads.  Numbers
keep their source lexeme, which is enough for every use in the
repository (the code never does arithmetic on decoded numbers). -/
inductive Json where
  | null : Json
  | bool (b : Bool) : Json
  | num (lexeme : String) : Json
  | str (s : String) : Json
  | arr (elems : List Json) : Json
  | obj (fields : List (String × Json)) : Json

mutual

/-- Boolean equality on modelled JSON values. -/
def Json.beq : Json → Json → Bool
  | .null, .null => true
  | .bool a, .bool b => a == b
  | .num a, .num b => a == b
  | .str a, .str b => a == b
  | .arr a, .arr b => Json.beqList a b
  | .obj a, .obj b => Json.beqFields a b
  | _, _ => false

/-- Boolean equality on lists of modelled JSON values. -/
def Json.beqList : List Json → List Json → Bool
  | [], [] => true
  | a :: as, b :: bs => Json.beq a b && Json.beqList as bs
  | _, _ => false

/-- Boolean equality on JSON object field lists. -/
def Json.beqFields : List (String × Json) → List (String × Json) → Bool
  | [], [] => true
  | (k1, v1) :: as, (k2, v2) :: bs => k1 == k2 && Json.beq v1 v2 && Json.beqFields as bs
  | _, _ => false

end

/-- Whether a JSON value is the null value (Python None after json.loads). -/
def Json.isNull : Json → Bool
  | .null => true
  | _ => false

/-- Errors that model the Python exceptions relevant to this code base. -/
inductive PyErr where
  | fileNotFound (missing : List String)
  | jsonDecodeError
  | attributeError
  | typeError
  | engineError (code : Nat)
deriving DecidableEq

/-- Result of a Python computation: a value, or a raised exception. -/
inductive PyResult (α : Type) where
  | ok (val : α) : PyResult α
  | exn (e : PyErr) : PyResult α

instance {α : Type} [DecidableEq α] : DecidableEq (PyResult α) := fun a b =>
  match a, b with
  | .ok x, .ok y =>
    if h : x = y then isTrue (by rw [h]) else isFalse (by intro hh; injection hh; contradiction)
  | .exn x, .exn y =>
    if h : x = y then isTrue (by rw [h]) else isFalse (by intro hh; injection hh; contradiction)
  | .ok _, .exn _ => isFalse (by intro hh; cases hh)
  | .exn _, .ok _ => isFalse (by intro hh; cases hh)

/-!  A JSON parser modelling json.loads.  It follows the strict JSON
grammar that the Python decoder accepts (with the default extras NaN,
Infinity and -Infinity kept as numeric lexemes), decodes the usual
backslash escapes inside strings, and rejects trailing garbage. -/

/-- Skip JSON whitespace. -/
def skipWs : List Char → List Char
  | c :: t => if c == ' ' || c == '\t' || c == '\n' || c == '\r' then skipWs t else c :: t
  | [] => []

/-- Decode the hexadecimal value of a character, if any. -/
def hexVal (c : Char) : Option Nat :=
  if c.isDigit then some (c.toNat - 48)
  else if 'a' ≤ c && c ≤ 'f' then some (c.toNat - 87)
  else if 'A' ≤ c && c ≤ 'F' then some (c.toNat - 55)
  else none

/-- Parse the body of a JSON string literal, after the opening quote;
returns the decoded string and the input after the closing quote. -/
def parseStrBody : List Char → Option (List Char × List Char)
  | [] => none
  | '"' :: rest => some ([], rest)
  | '\\' :: esc =>
    match esc with
    | '"' :: rest => (parseStrBody rest).map (fun p => ('"' :: p.1, p.2))
    | '\\' :: rest => (parseStrBody rest).map (fun p => ('\\' :: p.1, p.2))
    | '/' :: rest => (parseStrBody rest).map (fun p => ('/' :: p.1, p.2))
    | 'b' :: rest => (parseStrBody rest).map (fun p => ('\x08' :: p.1, p.2))
    | 'f' :: rest => (parseStrBody rest).map (fun p => ('\x0c' :: p.1, p.2))
    | 'n' :: rest => (parseStrBody rest).map (fun p => ('\n' :: p.1, p.2))
    | 'r' :: rest => (parseStrBody rest).map (fun p => ('\r' :: p.1, p.2))
    | 't' :: rest => (parseStrBody rest).map (fun p => ('\t' :: p.1, p.2))
    | 'u' :: h1 :: h2 :: h3 :: h4 :: rest =>
      match hexVal h1, hexVal h2, hexVal h3, hexVal h4 with
      | some a, some b, some c, some d =>
        (parseStrBody rest).map (fun p => (Char.ofNat (((a * 16 + b) * 16 + c) * 16 + d) :: p.1, p.2))
      | _, _, _, _ => none
    | _ => none
  | c :: rest =>
    if c.toNat < 32 then none
    else (parseStrBody rest).map (fun p => (c :: p.1, p.2))

/-- Collect decimal digits from the front of the input. -/
def takeDigits : List Char → List Char × List Char
  | c :: t =>
    if c.isDigit then
      let p := takeDigits t
      (c :: p.1, p.2)
    else ([], c :: t)
  | [] => ([], [])

/-- Parse the signed digit string of an exponent. -/
def parseExpDigits (cs : List Char) (lex : List Char) : Option (List Char × List Char) :=
  let signed : List Char × List Char :=
    match cs with
    | '+' :: t => (['+'], t)
    | '-' :: t => (['-'], t)
    | _ => ([], cs)
  match takeDigits signed.2 with
  | ([], _) => none
  | (ds, rest) => some (lex ++ signed.1 ++ ds, rest)

/-- Parse an optional fraction and exponent after the integer part of a
JSON numeral; intPart is the lexeme read so far. -/
def parseFracExp (cs : List Char) (intPart : List Char) : Option (List Char × List Char) :=
  let afterFrac : Option (List Char × List Char) :=
    match cs with
    | '.' :: t =>
      match takeDigits t with
      | ([], _) => none
      | (ds, rest) => some (intPart ++ '.' :: ds, rest)
    | _ => some (intPart, cs)
  match afterFrac with
  | none => none
  | some (lex, rest) =>
    match rest with
    | 'e' :: t => parseExpDigits t (lex ++ ['e'])
    | 'E' :: t => parseExpDigits t (lex ++ ['E'])
    | _ => some (lex, rest)

/-- Parse the unsigned part of a JSON numeral after an optional sign:
integer part, optional fraction, optional exponent.  Returns the lexeme. -/
def parseNumTail : List Char → Option (List Char × List Char)
  | c :: t =>
    if c == '0' then
      parseFracExp t [c]
    else if c.isDigit then
      let p := takeDigits t
      parseFracExp p.2 (c :: p.1)
    else none
  | [] => none

mutual

/-- Parse one JSON value; fuel bounds the recursion depth. -/
def parseValue : Nat → List Char → Option (Json × List Char)
  | 0, _ => none
  | fuel + 1, cs =>
    match skipWs cs with
    | '{' :: rest =>
      match skipWs rest with
      | '}' :: rest2 => some (Json.obj [], rest2)
      | rest2 =>
        match parseFields fuel rest2 with
        | some (fs, rest3) => some (Json.obj fs, rest3)
        | none => none
    | '[' :: rest =>
      match skipWs rest with
      | ']' :: rest2 => some (Json.arr [], rest2)
      | rest2 =>
        match parseElems fuel rest2 with
        | some (es, rest3) => some (Json.arr es, rest3)
        | none => none
    | '"' :: rest =>
      match parseStrBody rest with
      | some (body, rest2) => some (Json.str (String.mk body), rest2)
      | none => none
    | 't' :: 'r' :: 'u' :: 'e' :: rest => some (Json.bool true, rest)
    | 'f' :: 'a' :: 'l' :: 's' :: 'e' :: rest => some (Json.bool false, rest)
    | 'n' :: 'u' :: 'l' :: 'l' :: rest => some (Json.null, rest)
    | 'N' :: 'a' :: 'N' :: rest => some (Json.num "NaN", rest)
    | 'I' :: 'n' :: 'f' :: 'i' :: 'n' :: 'i' :: 't' :: 'y' :: rest =>
      some (Json.num "Infinity", rest)
    | '-' :: 'I' :: 'n' :: 'f' :: 'i' :: 'n' :: 'i' :: 't' :: 'y' :: rest =>
      some (Json.num "-Infinity", rest)
    | '-' :: rest =>
      match parseNumTail rest with
      | some (lex, rest2) => some (Json.num (String.mk ('-' :: lex)), rest2)
      | none => none
    | cs2 =>
      match parseNumTail cs2 with
      | some (lex, rest2) => some (Json.num (String.mk lex), rest2)
      | none => none

/-- Parse the comma-separated elements of a JSON array, after the
opening bracket (the empty-array case is handled by the caller). -/
def parseElems : Nat → List Char → Option (List Json × List Char)
  | 0, _ => none
  | fuel + 1, cs =>
    match parseValue fuel cs with
    | some (j, rest) =>
      match skipWs rest with
      | ',' :: rest2 =>
        match parseElems fuel rest2 with
        | some (es, rest3) => some (j :: es, rest3)
        | none => none
      | ']' :: rest2 => some ([j], rest2)
      | _ => none
    | none => none

/-- Parse the comma-separated members of a JSON object, after the
opening brace (the empty-object case is handled by the caller). -/
def parseFields : Nat → List Char → Option (List (String × Json) × List Char)
  | 0, _ => none
  | fuel + 1, cs =>
    match skipWs cs with
    | '"' :: rest =>
      match parseStrBody rest with
      | some (keyChars, rest2) =>
        match skipWs rest2 with
        | ':' :: rest3 =>
          match parseValue fuel rest3 with
          | some (v, rest4) =>
            match skipWs rest4 with
            | ',' :: rest5 =>
              match parseFields fuel rest5 with
              | some (fs, rest6) => some ((String.mk keyChars, v) :: fs, rest6)
              | none => none
            | '}' :: rest5 => some ([(String.mk keyChars, v)], rest5)
            | _ => none
          | none => none
        | _ => none
      | none => none
    | _ => none

end

/-- Model of json.loads on a whole document: parse one value and
reject trailing garbage; a failed parse models the raised decode error
(mapped to none here, wrapped by callers as they catch it). -/
def jsonParse (s : String) : Option Json :=
  match parseValue (2 * s.length + 2) s.data with
  | some (j, rest) => if (skipWs rest).isEmpty then some j else none
  | none => none

/-- Lookup in a decoded JSON object with Python dict semantics: when a
key was produced several times by the decoder the last value wins. -/
def objGet (fields : List (String × Json)) (key : String) : Option Json :=
  match fields with
  | [] => none
  | (k, v) :: rest =>
    match objGet rest key with
    | some w => some w
    | none => if k == key then some v else none

/-- Whether the mantissa of a numeric lexeme is zero (sign, dot and
exponent ignored), modelling Python numeric truthiness on decoded
JSON numbers. -/
def zeroLexeme (lex : String) : Bool :=
  (lex.data.takeWhile (fun c => c != 'e' && c != 'E')).all
    (fun c => c == '0' || c == '-' || c == '+' || c == '.')

/-- Python truthiness of a decoded JSON value. -/
def pyTruthy : Json → Bool
  | .null => false
  | .bool b => b
  | .num lex => !zeroLexeme lex
  | .str s => !s.data.isEmpty
  | .arr l => !l.isEmpty
  | .obj fs => !fs.isEmpty

/-- Python attribute access data.get(key, default): succeeds on a
decoded dict, raises AttributeError on anything else. -/
def pyGetD (data : Json) (key : String) (default : Json) : PyResult Json :=
  match data with
  | .obj fields => .ok ((objGet fields key).getD default)
  | _ => .exn .attributeError

/-- Python subscript items[0] on a decoded JSON value: first element of
a list, first character of a string, type error otherwise (dict
subscripts with an int key raise too, modelled as the same error). -/
def pyIndexZero : Json → PyResult Json
  | .arr (x :: _) => .ok x
  | .arr [] => .exn .typeError
  | .str s =>
    match s.data with
    | c :: _ => .ok (Json.str (String.mk [c]))
    | [] => .exn .typeError
  | _ => .exn .typeError

/-- Python item.get(uid-key) on a decoded JSON value: dict lookup
defaulting to None, AttributeError on non-dicts. -/
def pyGetUid (item : Json) : PyResult Json :=
  match item with
  | .obj fields => .ok ((objGet fields "uid").getD Json.null)
  | _ => .exn .attributeError

/-- Body of the try block of _first_uid_from_query (model.py lines
20-28): json.loads, data.get(key, []), the emptiness early return, and
items[0].get of the uid. -/
def _first_uid_body (json_str : String) (key : String) : PyResult Json :=
  match jsonParse json_str with
  | none => .exn .jsonDecodeError
  | some data =>
    match pyGetD data key (Json.arr []) with
    | .exn e => .exn e
    | .ok items =>
      if !pyTruthy items then .ok Json.null
      else
        match pyIndexZero items with
        | .exn e => .exn e
        | .ok item => pyGetUid item

/-- Embedding of _first_uid_from_query (model.py lines 20-28): the
try/except wrapper maps any raised exception to the Python None
return, modelled as Json.null. -/
def _first_uid_from_query (json_str : String) (key : String) : Json :=
  match _first_uid_body json_str key with
  | .ok v => v
  | .exn _ => Json.null

/-- Restatement of claim C10 in its own words (not taken from the
code): the uid of the first result when the string is valid JSON whose
decoded form holds a non-empty list under the key and whose first item
carries a uid, and None in every other case. -/
def firstUidClaimed (json_str : String) (key : String) : Json :=
  match jsonParse json_str with
  | some (Json.obj fields) =>
    match objGet fields key with
    | some (Json.arr (first :: _)) =>
      match first with
      | Json.obj itemFields => (objGet itemFields "uid").getD Json.null
      | _ => Json.null
    | _ => Json.null
  | _ => Json.null

/-!  The Dgraph client contract.  A transaction-level interaction trace
records every transaction opened, every query and mutation sent, and
every commit and discard, so that resource-release claims can be read
off the trace.  Transaction identifiers are allocated sequentially. -/

/-- A node record as built by the node loaders from one CSV row:
a blank-node reference, a dgraph.type, and string attributes. -/
structure NodeRec where
  uid : String
  dtype : String
  attrs : List (String × String)
deriving DecidableEq

/-- A mutation payload sent through transaction.mutate. -/
inductive Mutation where
  | setNodes (recs : List NodeRec) : Mutation
  | setEdge (subjUid : Json) (pred : String) (objUid : Json) : Mutation
  | delNodes (uids : List Json) : Mutation

/-- One event of a client interaction trace. -/
inductive Event where
  | openTxn (id : Nat) (readOnly : Bool) : Event
  | queryEv (id : Nat) (q : String) : Event
  | mutateEv (id : Nat) (m : Mutation) : Event
  | commitEv (id : Nat) : Event
  | discardEv (id : Nat) : Event

/-- Whether an event is a mutation call. -/
def Event.isMutate : Event → Bool
  | .mutateEv _ _ => true
  | _ => false

/-- Model of the external Dgraph engine behind the client contract:
qresp gives the JSON text answering a read-only query, mres gives the
outcome of a mutation (none = success, some e = raised error), and
assign gives the generated uid the engine pairs with a blank-node
reference in a mutation response. -/
structure Engine where
  qresp : String → String
  mres : Mutation → Option PyErr
  assign : String → String

/-- Mutation response contract of the external engine, per the client
contract of the spec: the uids mapping of a successful set mutation has
one entry for each distinct blank-node reference of the payload. -/
def uidsResponse (eng : Engine) (recs : List NodeRec) : List (String × String) :=
  ((recs.map NodeRec.uid).dedup).map (fun b => (b, eng.assign b))

/-- Warnings printed by the relationship loaders when a lookup finds
nothing; each keeps the looked-up value of the offending row. -/
inductive SkipWarning where
  | commentNotFound (text : String) : SkipWarning
  | repliedToNotFound (text : String) : SkipWarning
  | videoNotFound (title : String) : SkipWarning
  | userNotFound (username : String) : SkipWarning
  | playlistNotFound (title : String) : SkipWarning
deriving DecidableEq

/-- Outcome of one relationship load: the interaction trace, the
skipped-row warnings printed, and the exception that escaped the loop,
if any. -/
structure RelOutcome where
  events : List Event
  warns : List SkipWarning
  err : Option PyErr

/-- Common loop shape of the relationship loaders that issue the first
lookup, test it, then issue the second lookup (all of them except
load_user_posts_video and load_user_saves_video).  Per row: a read-only
transaction per lookup (opened, queried, and left unreleased, as in the
source), a skip with a printed warning when a looked-up uid is None,
otherwise a write transaction whose mutate/commit sits in a
try/finally discard; a raised mutation error escapes the loop. -/
def loadRelChecked {ρ : Type}
    (eng : Engine)
    (q1 : ρ → String) (key1 : String) (w1 : ρ → SkipWarning)
    (q2 : ρ → String) (key2 : String) (w2 : ρ → SkipWarning)
    (mkMut : Json → Json → Mutation) :
    List ρ → Nat → RelOutcome
  | [], _ => ⟨[], [], none⟩
  | r :: rest, k =>
    let s1 := q1 r
    let e1 := [Event.openTxn k true, Event.queryEv k s1]
    let u1 := _first_uid_from_query (eng.qresp s1) key1
    if u1.isNull then
      let o := loadRelChecked eng q1 key1 w1 q2 key2 w2 mkMut rest (k + 1)
      ⟨e1 ++ o.events, w1 r :: o.warns, o.err⟩
    else
      let s2 := q2 r
      let e2 := [Event.openTxn (k + 1) true, Event.queryEv (k + 1) s2]
      let u2 := _first_uid_from_query (eng.qresp s2) key2
      if u2.isNull then
        let o := loadRelChecked eng q1 key1 w1 q2 key2 w2 mkMut rest (k + 2)
        ⟨e1 ++ e2 ++ o.events, w2 r :: o.warns, o.err⟩
      else
        let m := mkMut u1 u2
        let e3 := [Event.openTxn (k + 2) false, Event.mutateEv (k + 2) m]
        match eng.mres m with
        | some er => ⟨e1 ++ e2 ++ e3 ++ [Event.discardEv (k + 2)], [], some er⟩
        | none =>
          let o := loadRelChecked eng q1 key1 w1 q2 key2 w2 mkMut rest (k + 3)
          ⟨e1 ++ e2 ++ e3 ++ [Event.commitEv (k + 2), Event.discardEv (k + 2)] ++ o.events,
            o.warns, o.err⟩

/-- Common loop shape of load_user_posts_video and
load_user_saves_video, which issue both lookups before testing either
uid (so the second read-only transaction is opened even when the first
lookup already failed). -/
def loadRelEager {ρ : Type}
    (eng : Engine)
    (q1 : ρ → String) (key1 : String) (w1 : ρ → SkipWarning)
    (q2 : ρ → String) (key2 : String) (w2 : ρ → SkipWarning)
    (mkMut : Json → Json → Mutation) :
    List ρ → Nat → RelOutcome
  | [], _ => ⟨[], [], none⟩
  | r :: rest, k =>
    let s1 := q1 r
    let s2 := q2 r
    let e12 := [Event.openTxn k true, Event.queryEv k s1,
                Event.openTxn (k + 1) true, Event.queryEv (k + 1) s2]
    let u1 := _first_uid_from_query (eng.qresp s1) key1
    if u1.isNull then
      let o := loadRelEager eng q1 key1 w1 q2 key2 w2 mkMut rest (k + 2)
      ⟨e12 ++ o.events, w1 r :: o.warns, o.err⟩
    else
      let u2 := _first_uid_from_query (eng.qresp s2) key2
      if u2.isNull then
        let o := loadRelEager eng q1 key1 w1 q2 key2 w2 mkMut rest (k + 2)
        ⟨e12 ++ o.events, w2 r :: o.warns, o.err⟩
      else
        let m := mkMut u1 u2
        let e3 := [Event.openTxn (k + 2) false, Event.mutateEv (k + 2) m]
        match eng.mres m with
        | some er => ⟨e12 ++ e3 ++ [Event.discardEv (k + 2)], [], some er⟩
        | none =>
          let o := loadRelEager eng q1 key1 w1 q2 key2 w2 mkMut rest (k + 3)
          ⟨e12 ++ e3 ++ [Event.commitEv (k + 2), Event.discardEv (k + 2)] ++ o.events,
            o.warns, o.err⟩

/-- CSV row of comment_replies_comment.csv. -/
structure CrcRow where
  comment_text : String
  replied_to_text : String

/-- CSV row of comment_replies_video.csv. -/
structure CrvRow where
  comment_text : String
  video_title : String

/-- CSV row of playlist_contains_video.csv. -/
structure PcvRow where
  playlist_title : String
  video_title : String

/-- CSV row of user_comments.csv and user_likes_comment.csv. -/
structure UserCommentRow where
  username : String
  comment_text : String

/-- CSV row of the username/title relationship files
(user_creates_playlist, user_likes_video, user_posts_video,
user_saves_video). -/
structure UserTitleRow where
  username : String
  title : String

/-- Lookup query for a comment by exact text match, as built by
load_comment_replies_comment (model.py line 252): note the eq filter. -/
def crc_comment_query (text : String) : String :=
  "\x7bcomment(func: eq(text, \"" ++ text ++ "\"))\x7buid\x7d\x7d"

/-- Lookup query for a comment by full-text match, as built by
load_comment_replies_video, load_user_comments and
load_user_likes_comment. -/
def anyoftext_comment_query (text : String) : String :=
  "\x7b comment(func: anyoftext(text, \"" ++ text ++ "\")) \x7b uid \x7d \x7d"

/-- Lookup query for a video by exact title match. -/
def video_title_query (title : String) : String :=
  "\x7b video(func: eq(title, \"" ++ title ++ "\")) \x7b uid \x7d \x7d"

/-- Lookup query for a playlist by exact title match. -/
def playlist_title_query (title : String) : String :=
  "\x7b playlist(func: eq(title, \"" ++ title ++ "\")) \x7b uid \x7d \x7d"

/-- Lookup query for a user by exact username match. -/
def user_query (username : String) : String :=
  "\x7b user(func: eq(username, \"" ++ username ++ "\")) \x7b uid \x7d \x7d"

/-- Embedding of load_comment_replies_comment (model.py lines 245-279):
both endpoints are comments looked up with eq on text; the edge
mutation sets replies_to_c_c on the replied-to comment, pointing at the
replying comment. -/
def load_comment_replies_comment (eng : Engine) (rows : List CrcRow) (k : Nat) : RelOutcome :=
  loadRelChecked eng
    (fun r => crc_comment_query r.comment_text) "comment"
    (fun r => SkipWarning.commentNotFound r.comment_text)
    (fun r => crc_comment_query r.replied_to_text) "comment"
    (fun r => SkipWarning.repliedToNotFound r.replied_to_text)
    (fun ctUid rttUid => Mutation.setEdge rttUid "replies_to_c_c" ctUid)
    rows k

/-- Embedding of load_comment_replies_video (model.py lines 288-320). -/
def load_comment_replies_video (eng : Engine) (rows : List CrvRow) (k : Nat) : RelOutcome :=
  loadRelChecked eng
    (fun r => anyoftext_comment_query r.comment_text) "comment"
    (fun r => SkipWarning.commentNotFound r.comment_text)
    (fun r => video_title_query r.video_title) "video"
    (fun r => SkipWarning.videoNotFound r.video_title)
    (fun cUid vUid => Mutation.setEdge cUid "replies_to_c_v" vUid)
    rows k

/-- Embedding of load_playlist_contains_video (model.py lines 329-362). -/
def load_playlist_contains_video (eng : Engine) (rows : List PcvRow) (k : Nat) : RelOutcome :=
  loadRelChecked eng
    (fun r => playlist_title_query r.playlist_title) "playlist"
    (fun r => SkipWarning.playlistNotFound r.playlist_title)
    (fun r => video_title_query r.video_title) "video"
    (fun r => SkipWarning.videoNotFound r.video_title)
    (fun pUid vUid => Mutation.setEdge pUid "contains" vUid)
    rows k

/-- Embedding of load_user_comments (model.py lines 371-403): user by
eq on username, comment by anyoftext on text. -/
def load_user_comments (eng : Engine) (rows : List UserCommentRow) (k : Nat) : RelOutcome :=
  loadRelChecked eng
    (fun r => user_query r.username) "user"
    (fun r => SkipWarning.userNotFound r.username)
    (fun r => anyoftext_comment_query r.comment_text) "comment"
    (fun r => SkipWarning.commentNotFound r.comment_text)
    (fun uUid cUid => Mutation.setEdge uUid "comments" cUid)
    rows k

/-- Embedding of load_user_creates_playlist (model.py lines 412-444). -/
def load_user_creates_playlist (eng : Engine) (rows : List UserTitleRow) (k : Nat) : RelOutcome :=
  loadRelChecked eng
    (fun r => user_query r.username) "user"
    (fun r => SkipWarning.userNotFound r.username)
    (fun r => playlist_title_query r.title) "playlist"
    (fun r => SkipWarning.playlistNotFound r.title)
    (fun uUid pUid => Mutation.setEdge uUid "creates" pUid)
    rows k

/-- Embedding of load_user_likes_comment (model.py lines 453-486). -/
def load_user_likes_comment (eng : Engine) (rows : List UserCommentRow) (k : Nat) : RelOutcome :=
  loadRelChecked eng
    (fun r => user_query r.username) "user"
    (fun r => SkipWarning.userNotFound r.username)
    (fun r => anyoftext_comment_query r.comment_text) "comment"
    (fun r => SkipWarning.commentNotFound r.comment_text)
    (fun uUid cUid => Mutation.setEdge uUid "likes_u_c" cUid)
    rows k

/-- Embedding of load_user_likes_video (model.py lines 495-528). -/
def load_user_likes_video (eng : Engine) (rows : List UserTitleRow) (k : Nat) : RelOutcome :=
  loadRelChecked eng
    (fun r => user_query r.username) "user"
    (fun r => SkipWarning.userNotFound r.username)
    (fun r => video_title_query r.title) "video"
    (fun r => SkipWarning.videoNotFound r.title)
    (fun uUid vUid => Mutation.setEdge uUid "likes_u_v" vUid)
    rows k

/-- Embedding of load_user_posts_video (model.py lines 537-569): both
lookups are issued before either uid is tested. -/
def load_user_posts_video (eng : Engine) (rows : List UserTitleRow) (k : Nat) : RelOutcome :=
  loadRelEager eng
    (fun r => user_query r.username) "user"
    (fun r => SkipWarning.userNotFound r.username)
    (fun r => video_title_query r.title) "video"
    (fun r => SkipWarning.videoNotFound r.title)
    (fun uUid vUid => Mutation.setEdge uUid "posts" vUid)
    rows k

/-- Embedding of load_user_saves_video (model.py lines 578-610). -/
def load_user_saves_video (eng : Engine) (rows : List UserTitleRow) (k : Nat) : RelOutcome :=
  loadRelEager eng
    (fun r => user_query r.username) "user"
    (fun r => SkipWarning.userNotFound r.username)
    (fun r => video_title_query r.title) "video"
    (fun r => SkipWarning.videoNotFound r.title)
    (fun uUid vUid => Mutation.setEdge uUid "saves" vUid)
    rows k

/-!  Node loaders.  Each reads every CSV row eagerly, builds one typed
record per row tagged with a blank-node reference counted from 1, and
submits the whole batch in a single mutate inside a single transaction
whose commit sits in a try/finally discard. -/

/-- CSV row of comments.csv. -/
structure CommentRow where
  text : String

/-- CSV row of playlists.csv. -/
structure PlaylistRow where
  title : String
  visibility : String

/-- CSV row of users.csv. -/
structure UserRow where
  username : String
  email : String
  lat : String
  long : String

/-- CSV row of videos.csv. -/
structure VideoRow where
  title : String
  description : String
  duration : String
  date_uploaded : String

/-- Build node records from rows with a per-row constructor, counting
the CSV row index from i, exactly as the i = 1 counter loops of the
node loaders do. -/
def nodeRecsFrom {ρ : Type} (mk : Nat → ρ → NodeRec) (i : Nat) : List ρ → List NodeRec
  | [] => []
  | r :: rest => mk i r :: nodeRecsFrom mk (i + 1) rest

/-- Record built for the i-th comment row (model.py lines 129-133). -/
def commentRec (i : Nat) (r : CommentRow) : NodeRec :=
  ⟨"_:c" ++ Nat.repr i, "Comment", [("text", r.text)]⟩

/-- Record built for the i-th playlist row (model.py lines 158-163). -/
def playlistRec (i : Nat) (r : PlaylistRow) : NodeRec :=
  ⟨"_:p" ++ Nat.repr i, "Playlist", [("title", r.title), ("visibility", r.visibility)]⟩

/-- Record built for the i-th user row (model.py lines 188-195). -/
def userRec (i : Nat) (r : UserRow) : NodeRec :=
  ⟨"_:u" ++ Nat.repr i, "User",
    [("username", r.username), ("email", r.email),
     ("location.lat", r.lat), ("location.long", r.long)]⟩

/-- Record built for the i-th video row (model.py lines 220-227). -/
def videoRec (i : Nat) (r : VideoRow) : NodeRec :=
  ⟨"_:v" ++ Nat.repr i, "Video",
    [("title", r.title), ("description", r.description),
     ("duration", r.duration), ("date_uploaded", r.date_uploaded)]⟩

/-- Common body of the four node loaders: one transaction, one mutate
with the full batch, commit, and the finally discard; on a mutation
error the finally discard still runs and the error propagates to the
caller, so no uids mapping is returned. -/
def loadNodesGeneric (eng : Engine) (recs : List NodeRec) :
    List Event × PyResult (List (String × String)) :=
  let m := Mutation.setNodes recs
  match eng.mres m with
  | some er =>
    ([Event.openTxn 0 false, Event.mutateEv 0 m, Event.discardEv 0], .exn er)
  | none =>
    ([Event.openTxn 0 false, Event.mutateEv 0 m, Event.commitEv 0, Event.discardEv 0],
      .ok (uidsResponse eng recs))

/-- Embedding of load_comments (model.py lines 120-140). -/
def load_comments (eng : Engine) (rows : List CommentRow) :
    List Event × PyResult (List (String × String)) :=
  loadNodesGeneric eng (nodeRecsFrom commentRec 1 rows)

/-- Embedding of load_playlists (model.py lines 149-170). -/
def load_playlists (eng : Engine) (rows : List PlaylistRow) :
    List Event × PyResult (List (String × String)) :=
  loadNodesGeneric eng (nodeRecsFrom playlistRec 1 rows)

/-- Embedding of load_users (model.py lines 179-202). -/
def load_users (eng : Engine) (rows : List UserRow) :
    List Event × PyResult (List (String × String)) :=
  loadNodesGeneric eng (nodeRecsFrom userRec 1 rows)

/-- Embedding of load_videos (model.py lines 211-234). -/
def load_videos (eng : Engine) (rows : List VideoRow) :
    List Event × PyResult (List (String × String)) :=
  loadNodesGeneric eng (nodeRecsFrom videoRec 1 rows)

/-!  The load orchestrator create_data (model.py lines 620-679).  The
thirteen helper calls are abstracted as steps whose outcome (normal
return or raised exception) is given by an oracle; what is modelled is
the pre-flight file check, the fixed step order, and the single
try/except around the whole body that logs the first raised exception
and returns normally. -/

/-- The thirteen load steps of create_data, in source order. -/
inductive LoadStep where
  | comments | playlists | users | videos
  | commentRepliesComment | commentRepliesVideo | playlistContainsVideo
  | userComments | userCreatesPlaylist | userLikesComment | userLikesVideo
  | userPostsVideo | userSavesVideo
deriving DecidableEq

/-- Step order of create_data (model.py lines 664-676). -/
def allLoadSteps : List LoadStep :=
  [.comments, .playlists, .users, .videos,
   .commentRepliesComment, .commentRepliesVideo, .playlistContainsVideo,
   .userComments, .userCreatesPlaylist, .userLikesComment, .userLikesVideo,
   .userPostsVideo, .userSavesVideo]

/-- The required source paths checked by the pre-flight sanity check
(model.py lines 654-657), relative to the project root. -/
def requiredFiles : List String :=
  ["data/nodes/comments.csv", "data/nodes/playlists.csv",
   "data/nodes/users.csv", "data/nodes/videos.csv",
   "data/edges/comment_replies_comment.csv", "data/edges/comment_replies_video.csv",
   "data/edges/playlist_contains_video.csv", "data/edges/user_comments.csv",
   "data/edges/user_creates_playlist.csv", "data/edges/user_likes_comment.csv",
   "data/edges/user_likes_video.csv", "data/edges/user_posts_video.csv",
   "data/edges/user_saves_video.csv"]

/-- Run steps in order until the first raised exception: returns the
steps attempted (the failing one included) and the exception, if any. -/
def runSteps (stepRun : LoadStep → PyResult Unit) : List LoadStep → List LoadStep × Option PyErr
  | [] => ([], none)
  | s :: rest =>
    match stepRun s with
    | .exn e => ([s], some e)
    | .ok _ =>
      let p := runSteps stepRun rest
      (s :: p.1, p.2)

/-- Embedding of create_data (model.py lines 620-679): the pre-flight
check aggregates every missing required file into one FileNotFoundError
before any load step runs; the single try/except catches whatever is
raised (the pre-flight error or the first step exception), logs it and
returns normally, so the result is the list of attempted steps plus
the logged error, if any. -/
def create_data (fileExists : String → Bool) (stepRun : LoadStep → PyResult Unit) :
    List LoadStep × Option PyErr :=
  let missing := requiredFiles.filter (fun f => !fileExists f)
  if missing.isEmpty then runSteps stepRun allLoadSteps
  else ([], some (.fileNotFound missing))

/-!  Query service (model.py lines 687-798) and the delete service
(model.py lines 809-833). -/

/-- Quote escaping applied by the query functions before interpolating
a user-supplied string: each double quote becomes backslash-quote,
modelling text.replace of the source. -/
def escapeChars : List Char → List Char
  | [] => []
  | c :: t => if c == '"' then '\\' :: '"' :: escapeChars t else c :: escapeChars t

/-- String form of the quote escaping. -/
def escapeQuotes (s : String) : String := String.mk (escapeChars s.data)

/-- Query text built by query_by_text (model.py lines 688-689); the
search text is escaped first. -/
def query_by_text_q (text_search : String) : String :=
  "\x7b comments(func: anyoftext(text, \"" ++ escapeQuotes text_search ++
    "\")) \x7b uid text \x7d \x7d"

/-- Query text built by query_video_posters_reverse (model.py lines
741-742); the title is escaped first. -/
def query_video_posters_reverse_q (video_title : String) : String :=
  "\x7b video_posters(func: eq(title, \"" ++ escapeQuotes video_title ++
    "\")) \x7b uid title ~posts \x7b uid username \x7d \x7d \x7d"

/-- Query text built by query_videos_paged (model.py line 791) from
already-coerced integers. -/
def query_videos_paged_q (first offset : Int) : String :=
  "\x7b paged_videos(func: type(Video), first: " ++ toString first ++
    ", offset: " ++ toString offset ++ ", orderasc: title) \x7b uid title \x7d \x7d"

/-- Query text built by delete_comment (model.py line 810); the term is
interpolated without escaping. -/
def delete_comment_q (comment_text : String) : String :=
  "\x7b comments(func: anyoftext(text, \"" ++ comment_text ++ "\")) \x7b uid \x7d \x7d"

/-- Common body of the read-only query functions: one read-only
transaction, the query, json.loads of the response, data.get of the
result key defaulting to the empty list; the finally discard runs on
every path, a decode or attribute error propagates to the caller. -/
def queryGeneric (eng : Engine) (q : String) (key : String) :
    List Event × PyResult Json :=
  let events := [Event.openTxn 0 true, Event.queryEv 0 q, Event.discardEv 0]
  let res : PyResult Json :=
    match jsonParse (eng.qresp q) with
    | none => .exn .jsonDecodeError
    | some data => pyGetD data key (Json.arr [])
  (events, res)

/-- Embedding of query_by_text (model.py lines 687-696). -/
def query_by_text (eng : Engine) (text_search : String) : List Event × PyResult Json :=
  queryGeneric eng (query_by_text_q text_search) "comments"

/-- Embedding of query_video_posters_reverse (model.py lines 740-749). -/
def query_video_posters_reverse (eng : Engine) (video_title : String) :
    List Event × PyResult Json :=
  queryGeneric eng (query_video_posters_reverse_q video_title) "video_posters"

/-- Embedding of query_videos_paged (model.py lines 790-798). -/
def query_videos_paged (eng : Engine) (first offset : Int) : List Event × PyResult Json :=
  queryGeneric eng (query_videos_paged_q first offset) "paged_videos"

/-- Whether the first list is an initial run of the second. -/
def listStarts : List Char → List Char → Bool
  | [], _ => true
  | _ :: _, [] => false
  | a :: as, b :: bs => a == b && listStarts as bs

/-- Whether the needle is a contiguous run of the haystack. -/
def containsAux (hay needle : List Char) : Bool :=
  listStarts needle hay ||
    match hay with
    | [] => false
    | _ :: t => containsAux t needle

/-- Whether the second string occurs inside the first. -/
def strContains (hay needle : String) : Bool :=
  containsAux hay.data needle.data

/-- Python membership test of the uid key against one decoded comment
item, as run by the uid list comprehension of delete_comment: key
membership for dicts, substring membership for strings, element
membership for lists, a type error for everything else. -/
def pyHasUidKey : Json → PyResult Bool
  | .obj fields => .ok ((objGet fields "uid").isSome)
  | .str s => .ok (strContains s "uid")
  | .arr l => .ok (l.any (fun x => Json.beq x (Json.str "uid")))
  | _ => .exn .typeError

/-- The uid list comprehension of delete_comment (model.py line 818):
collect the uid field of every item that passes the membership test;
subscripting a non-dict item that passed the test raises. -/
def collectUids : List Json → PyResult (List Json)
  | [] => .ok []
  | c :: rest =>
    match pyHasUidKey c with
    | .exn e => .exn e
    | .ok false => collectUids rest
    | .ok true =>
      match c with
      | .obj fields =>
        match objGet fields "uid" with
        | some v =>
          match collectUids rest with
          | .ok vs => .ok (v :: vs)
          | .exn e => .exn e
        | none => .exn .typeError
      | _ => .exn .typeError

/-- Python iteration over the decoded comments value in the uid
comprehension: lists iterate their elements, strings their characters,
dicts their keys; everything else raises. -/
def pyIter : Json → PyResult (List Json)
  | .arr l => .ok l
  | .str s => .ok (s.data.map (fun ch => Json.str (String.mk [ch])))
  | .obj fields => .ok (fields.map (fun p => Json.str p.1))
  | _ => .exn .typeError

/-- Messages printed by delete_comment. -/
inductive DeleteMsg where
  | noneFound (term : String) : DeleteMsg
  | deleting (count : Nat) (term : String) : DeleteMsg
deriving DecidableEq

/-- Outcome of delete_comment: the interaction trace, the printed
messages, and the returned value, where the Python return value is 0
on the nothing-matched path and None (modelled as Option.none) after a
successful delete. -/
structure DeleteOutcome where
  events : List Event
  msgs : List DeleteMsg
  result : PyResult (Option Int)

/-- First half of delete_comment (model.py lines 810-820): query the
matching comments under a read-only transaction released in a finally,
decode the response and run the uid comprehension. -/
def delete_comment_uids (eng : Engine) (comment_text : String) : PyResult (List Json) :=
  match jsonParse (eng.qresp (delete_comment_q comment_text)) with
  | none => .exn .jsonDecodeError
  | some data =>
    match pyGetD data "comments" (Json.arr []) with
    | .exn e => .exn e
    | .ok comments =>
      match pyIter comments with
      | .exn e => .exn e
      | .ok items => collectUids items

/-- Embedding of delete_comment (model.py lines 809-833): the uid
lookup above, then a return of 0 when nothing matched, otherwise one
delete mutation with every matched uid inside one write transaction
(committed, then discarded by the finally); that path falls off the
end of the function, returning None. -/
def delete_comment (eng : Engine) (comment_text : String) : DeleteOutcome :=
  let q := delete_comment_q comment_text
  let e1 := [Event.openTxn 0 true, Event.queryEv 0 q, Event.discardEv 0]
  match delete_comment_uids eng comment_text with
  | .exn e => ⟨e1, [], .exn e⟩
  | .ok uids =>
    if uids.isEmpty then ⟨e1, [.noneFound comment_text], .ok (some 0)⟩
    else
      let m := Mutation.delNodes uids
      let e2 := [Event.openTxn 1 false, Event.mutateEv 1 m]
      match eng.mres m with
      | some er =>
        ⟨e1 ++ e2 ++ [Event.discardEv 1], [.deleting uids.length comment_text], .exn er⟩
      | none =>
        ⟨e1 ++ e2 ++ [Event.commitEv 1, Event.discardEv 1],
          [.deleting uids.length comment_text], .ok none⟩

/-!  Pagination input handling of the menu (main.py lines 142-157). -/

/-- Accumulate the value of a decimal digit string that may hold single
underscores between digits, as Python int() accepts. -/
def digitsVal : List Char → Nat → Option Nat
  | [], acc => some acc
  | '_' :: d :: t, acc =>
    if d.isDigit then digitsVal t (acc * 10 + (d.toNat - 48)) else none
  | ['_'], _ => none
  | c :: t, acc =>
    if c.isDigit then digitsVal t (acc * 10 + (c.toNat - 48)) else none

/-- Parse a non-empty digit string (with optional inner underscores)
into its value. -/
def startDigits : List Char → Option Nat
  | c :: t => if c.isDigit then digitsVal t (c.toNat - 48) else none
  | [] => none

/-- Whether a character is whitespace stripped by Python int(). -/
def pyWs (c : Char) : Bool :=
  c == ' ' || c == '\t' || c == '\n' || c == '\r' || c == '\x0b' || c == '\x0c'

/-- Model of Python int() on an ASCII string: strip whitespace, accept
an optional sign and decimal digits (with single inner underscores);
none models the raised ValueError. -/
def pyInt (s : String) : Option Int :=
  let core := (s.data.dropWhile pyWs).reverse.dropWhile pyWs |>.reverse
  match core with
  | '-' :: rest => (startDigits rest).map (fun n => -(n : Int))
  | '+' :: rest => (startDigits rest).map (fun n => (n : Int))
  | l => (startDigits l).map (fun n => (n : Int))

/-- The first/offset pair the menu hands to query_videos_paged
(main.py lines 144-152): the values entered when both parse as
integers, the fallback pair (2, 0) when either int() raises. -/
def pagedChoice (first offset : String) : Int × Int :=
  match pyInt first, pyInt offset with
  | some a, some b => (a, b)
  | _, _ => (2, 0)

/-!  Claim-side definitions used to state refuted claims, and concrete
data used by counterexamples and witnesses. -/

/-- Split a character list into maximal whitespace-free words. -/
def splitWs (cs : List Char) (acc : List Char) : List String :=
  match cs with
  | [] => if acc.isEmpty then [] else [String.mk acc.reverse]
  | c :: t =>
    if c == ' ' then
      if acc.isEmpty then splitWs t [] else String.mk acc.reverse :: splitWs t []
    else splitWs t (c :: acc)

/-- Model of the fulltext anyoftext match of the external engine, from
the words of the spec: a comment matches when any whitespace-separated
term of the search string occurs among the terms of its text. -/
def anyTermMatches (searchText text : String) : Bool :=
  (splitWs searchText.data []).any (fun w => (splitWs text.data []).contains w)

/-!  Predicates used to state the claims, and concrete data used by
counterexamples and witnesses. -/

/-- A lookup response reports zero matches for a key: it decodes to an
object whose value under the key, defaulted to the empty list as the
code does, is the empty list (the key may also be absent, as Dgraph
answers when nothing matches). -/
def zeroMatches (respText : String) (key : String) : Prop :=
  ∃ fields, jsonParse respText = some (Json.obj fields) ∧
    (objGet fields key).getD (Json.arr []) = Json.arr []

/-- A transaction id has a release event (commit or discard) in a trace. -/
def releasedIn (tr : List Event) (id : Nat) : Prop :=
  Event.commitEv id ∈ tr ∨ Event.discardEv id ∈ tr

/-- Engine whose every lookup answers with empty result lists for all
block names used by the loaders, whose mutations succeed, and whose
blank-node assignment is a stub. -/
def engZero : Engine :=
  ⟨fun _ => "\x7b\"comment\": [], \"user\": [], \"video\": [], \"playlist\": [], \"comments\": []\x7d",
   fun _ => none, fun b => "0x" ++ b⟩

/-- Engine whose every lookup answers with one-element (or two-element
for comments) uid lists under every block name used by the loaders. -/
def engAll : Engine :=
  ⟨fun _ => "\x7b\"comment\": [\x7b\"uid\": \"0xc1\"\x7d, \x7b\"uid\": \"0xc2\"\x7d], \"user\": [\x7b\"uid\": \"0xu1\"\x7d], \"video\": [\x7b\"uid\": \"0xv1\"\x7d], \"playlist\": [\x7b\"uid\": \"0xp1\"\x7d]\x7d",
   fun _ => none, fun b => "0x" ++ b⟩

/-- Trivial engine used by witnesses that only need successful
mutations. -/
def trivEng : Engine :=
  ⟨fun _ => "\x7b\x7d", fun _ => none, fun b => "0x" ++ b⟩

/-- The comment store of the delete-by-term example of the spec:
uids paired with comment texts. -/
def c7store : List (String × String) :=
  [("0x1", "hello world"), ("0x2", "hello there"), ("0x3", "goodbye")]

/-- The response the engine gives for the delete-by-term example:
exactly the two comments of the store whose text fulltext-matches the
term hello. -/
def c7resp : String :=
  "\x7b\"comments\": [\x7b\"uid\": \"0x1\"\x7d, \x7b\"uid\": \"0x2\"\x7d]\x7d"

/-- Engine for the delete-by-term example: answers the query built by
delete_comment for the term hello with c7resp, mutations succeed. -/
def c7eng : Engine :=
  ⟨fun q => if q = delete_comment_q "hello" then c7resp else "\x7b\x7d",
   fun _ => none, fun b => "0x" ++ b⟩

/-- File-existence oracle with every required file present. -/
def feAll : String → Bool := fun _ => true

/-- File-existence oracle where comments.csv is absent. -/
def feNoComments : String → Bool := fun f => !(f == "data/nodes/comments.csv")

/-- Step oracle whose playlists step raises and whose other steps
return normally. -/
def srFailPlaylists : LoadStep → PyResult Unit := fun s =>
  if s = LoadStep.playlists then .exn (.engineError 0) else .ok ()

/-- Step oracle whose steps all return normally. -/
def srAllOk : LoadStep → PyResult Unit := fun _ => .ok ()

/-- The decoded object of the response every engAll lookup returns. -/
def engAllFields : List (String × Json) :=
  [("comment", Json.arr [Json.obj [("uid", Json.str "0xc1")],
                         Json.obj [("uid", Json.str "0xc2")]]),
   ("user", Json.arr [Json.obj [("uid", Json.str "0xu1")]]),
   ("video", Json.arr [Json.obj [("uid", Json.str "0xv1")]]),
   ("playlist", Json.arr [Json.obj [("uid", Json.str "0xp1")]])]

/-- Whether every double quote of the character list is immediately
preceded by a backslash character; prev is the character before the
list, if any. -/
def quotesPreceded : Option Char → List Char → Bool
  | _, [] => true
  | prev, c :: t =>
    if c == '"' then (prev == some '\\') && quotesPreceded (some c) t
    else quotesPreceded (some c) t

/-!  Theorems.  Each claim of the specification gets one theorem below
(and, where refuted, a counterexample and an amended theorem). -/

/-- A zero-match lookup response makes the first-uid helper answer
None: the decoded items default to the empty list, which is falsy, so
the early return fires. -/
theorem firstUid_of_zeroMatches (s key : String) (h : zeroMatches s key) :
    _first_uid_from_query s key = Json.null := by
  obtain ⟨fields, h1, h2⟩ := h
  unfold _first_uid_from_query _first_uid_body
  rw [h1]
  simp only [pyGetD, h2]
  rfl

/-- The first-uid helper applied to a response whose decoded items
list for the key starts with an object carrying a uid answers that
uid. -/
theorem firstUid_of_first_item (s key : String) (fields : List (String × Json))
    (item : List (String × Json)) (more : List Json) (u : Json)
    (h1 : jsonParse s = some (Json.obj fields))
    (h2 : objGet fields key = some (Json.arr (Json.obj item :: more)))
    (h3 : objGet item "uid" = some u) :
    _first_uid_from_query s key = u := by
  unfold _first_uid_from_query _first_uid_body
  rw [h1]
  simp only [pyGetD, h2]
  simp [pyTruthy, pyIndexZero, pyGetUid, h3]

/-- Claim C10: the uid-extraction helper _first_uid_from_query is
total, and its value is exactly what the claim describes: the uid of
the first result when the input is valid JSON decoding to an object
with a non-empty list under the key whose first item carries a uid,
and None (Json.null, with every internal exception caught) when the
JSON is malformed, the key is absent, the list is empty, or the first
item has no uid.  Stated as an equality with firstUidClaimed, the
function written from the words of the claim. -/
theorem C10_first_uid_totality (s key : String) :
    _first_uid_from_query s key = firstUidClaimed s key := by
  unfold _first_uid_from_query _first_uid_body firstUidClaimed
  cases hp : jsonParse s with
  | none => rfl
  | some data =>
    cases data with
    | null => rfl
    | bool b => rfl
    | num lex => rfl
    | str st => rfl
    | arr es => rfl
    | obj fields =>
      simp only [pyGetD]
      cases ho : objGet fields key with
      | none => rfl
      | some v =>
        cases v with
        | null => rfl
        | bool b => cases b <;> rfl
        | num lex =>
          by_cases hz : zeroLexeme lex
          · simp [pyTruthy, hz]
          · simp [pyTruthy, hz, pyIndexZero]
        | str st =>
          obtain ⟨cdata⟩ := st
          cases cdata with
          | nil => rfl
          | cons c t => rfl
        | arr es =>
          cases es with
          | nil => rfl
          | cons c cs =>
            cases c with
            | obj m2 => rfl
            | null => rfl
            | bool b => rfl
            | num l2 => rfl
            | str s2 => rfl
            | arr a2 => rfl
        | obj fs2 =>
          cases fs2 with
          | nil => rfl
          | cons f ft => rfl

/-- Every event of a lookup-only pair block is not a mutation. -/
theorem noMutate_pair (k1 : Nat) (s1 : String) :
    ∀ ev ∈ [Event.openTxn k1 true, Event.queryEv k1 s1], ev.isMutate = false := by
  intro ev hev
  rcases List.mem_cons.mp hev with rfl | hev
  · rfl
  · rcases List.mem_cons.mp hev with rfl | hev
    · rfl
    · cases hev

/-- Every event of a two-lookup block is not a mutation. -/
theorem noMutate_quad (k1 k2 : Nat) (s1 s2 : String) :
    ∀ ev ∈ [Event.openTxn k1 true, Event.queryEv k1 s1,
            Event.openTxn k2 true, Event.queryEv k2 s2], ev.isMutate = false := by
  intro ev hev
  rcases List.mem_cons.mp hev with rfl | hev
  · rfl
  · rcases List.mem_cons.mp hev with rfl | hev
    · rfl
    · exact noMutate_pair k2 s2 ev hev

/-- Claim C2: in the relationship loaders (stated for the two cited in
the claim, load_comment_replies_comment and load_user_posts_video), a
row either of whose endpoint lookups returns zero matches produces no
edge mutation, is recorded with a printed skip warning, lets the load
continue with the remaining rows unchanged, and contributes no
exception (the error outcome of the whole load equals that of the
remaining rows). -/
theorem C2_unresolved_row_skipped :
    (∀ (eng : Engine) (r : CrcRow) (rest : List CrcRow) (k : Nat),
      (zeroMatches (eng.qresp (crc_comment_query r.comment_text)) "comment" ∨
        zeroMatches (eng.qresp (crc_comment_query r.replied_to_text)) "comment") →
      ∃ E k' w,
        load_comment_replies_comment eng (r :: rest) k =
          ⟨E ++ (load_comment_replies_comment eng rest k').events,
            w :: (load_comment_replies_comment eng rest k').warns,
            (load_comment_replies_comment eng rest k').err⟩ ∧
        (∀ ev ∈ E, ev.isMutate = false) ∧
        (w = SkipWarning.commentNotFound r.comment_text ∨
          w = SkipWarning.repliedToNotFound r.replied_to_text)) ∧
    (∀ (eng : Engine) (r : UserTitleRow) (rest : List UserTitleRow) (k : Nat),
      (zeroMatches (eng.qresp (user_query r.username)) "user" ∨
        zeroMatches (eng.qresp (video_title_query r.title)) "video") →
      ∃ E k' w,
        load_user_posts_video eng (r :: rest) k =
          ⟨E ++ (load_user_posts_video eng rest k').events,
            w :: (load_user_posts_video eng rest k').warns,
            (load_user_posts_video eng rest k').err⟩ ∧
        (∀ ev ∈ E, ev.isMutate = false) ∧
        (w = SkipWarning.userNotFound r.username ∨
          w = SkipWarning.videoNotFound r.title)) := by
  constructor
  · intro eng r rest k h
    unfold load_comment_replies_comment
    cases hn : (_first_uid_from_query (eng.qresp (crc_comment_query r.comment_text)) "comment").isNull with
    | true =>
      refine ⟨[Event.openTxn k true, Event.queryEv k (crc_comment_query r.comment_text)],
        k + 1, SkipWarning.commentNotFound r.comment_text, ?_, noMutate_pair _ _, Or.inl rfl⟩
      simp [loadRelChecked, hn]
    | false =>
      have htgt : zeroMatches (eng.qresp (crc_comment_query r.replied_to_text)) "comment" := by
        rcases h with hsrc | htgt
        · rw [firstUid_of_zeroMatches _ _ hsrc] at hn
          simp [Json.isNull] at hn
        · exact htgt
      have hu2 : (_first_uid_from_query (eng.qresp (crc_comment_query r.replied_to_text)) "comment").isNull = true := by
        rw [firstUid_of_zeroMatches _ _ htgt]; rfl
      refine ⟨[Event.openTxn k true, Event.queryEv k (crc_comment_query r.comment_text),
               Event.openTxn (k + 1) true, Event.queryEv (k + 1) (crc_comment_query r.replied_to_text)],
        k + 2, SkipWarning.repliedToNotFound r.replied_to_text, ?_, noMutate_quad _ _ _ _, Or.inr rfl⟩
      simp [loadRelChecked, hn, hu2]
  · intro eng r rest k h
    unfold load_user_posts_video
    cases hn : (_first_uid_from_query (eng.qresp (user_query r.username)) "user").isNull with
    | true =>
      refine ⟨[Event.openTxn k true, Event.queryEv k (user_query r.username),
               Event.openTxn (k + 1) true, Event.queryEv (k + 1) (video_title_query r.title)],
        k + 2, SkipWarning.userNotFound r.username, ?_, noMutate_quad _ _ _ _, Or.inl rfl⟩
      simp [loadRelEager, hn]
    | false =>
      have htgt : zeroMatches (eng.qresp (video_title_query r.title)) "video" := by
        rcases h with hsrc | htgt
        · rw [firstUid_of_zeroMatches _ _ hsrc] at hn
          simp [Json.isNull] at hn
        · exact htgt
      have hu2 : (_first_uid_from_query (eng.qresp (video_title_query r.title)) "video").isNull = true := by
        rw [firstUid_of_zeroMatches _ _ htgt]; rfl
      refine ⟨[Event.openTxn k true, Event.queryEv k (user_query r.username),
               Event.openTxn (k + 1) true, Event.queryEv (k + 1) (video_title_query r.title)],
        k + 2, SkipWarning.videoNotFound r.title, ?_, noMutate_quad _ _ _ _, Or.inr rfl⟩
      simp [loadRelEager, hn, hu2]

set_option maxRecDepth 400000 in
/-- Witness for C2: a concrete run against an engine answering every
lookup with zero matches, for one comment-replies-comment row. -/
theorem C2_unresolved_row_skipped_witness :
    ∃ E k' w,
      load_comment_replies_comment engZero [⟨"a", "b"⟩] 0 =
        ⟨E ++ (load_comment_replies_comment engZero [] k').events,
          w :: (load_comment_replies_comment engZero [] k').warns,
          (load_comment_replies_comment engZero [] k').err⟩ ∧
      (∀ ev ∈ E, ev.isMutate = false) ∧
      (w = SkipWarning.commentNotFound "a" ∨ w = SkipWarning.repliedToNotFound "b") :=
  C2_unresolved_row_skipped.1 engZero ⟨"a", "b"⟩ [] 0
    (Or.inl ⟨[("comment", Json.arr []), ("user", Json.arr []), ("video", Json.arr []),
              ("playlist", Json.arr []), ("comments", Json.arr [])], by rfl, by rfl⟩)

/-- The batch built by a counting node-record loop has one record per
input row. -/
theorem nodeRecsFrom_length {ρ : Type} (mk : Nat → ρ → NodeRec) :
    ∀ (i : Nat) (rows : List ρ), (nodeRecsFrom mk i rows).length = rows.length := by
  intro i rows
  induction rows generalizing i with
  | nil => rfl
  | cons r rest ih => simp [nodeRecsFrom, ih]

/-- Successful single-batch node load, described once for all four
node loaders: with a nodup batch of blank-node references and a
successful mutation, the trace is one write transaction holding one
mutation with the whole batch, then commit and the finally discard;
the returned uids mapping keys are exactly the blank references of the
batch in order, one entry per record. -/
theorem loadNodes_success (eng : Engine) (recs : List NodeRec)
    (hs : eng.mres (Mutation.setNodes recs) = none)
    (hn : (recs.map NodeRec.uid).Nodup) :
    loadNodesGeneric eng recs =
      ([Event.openTxn 0 false, Event.mutateEv 0 (Mutation.setNodes recs),
        Event.commitEv 0, Event.discardEv 0], .ok (uidsResponse eng recs)) ∧
    (uidsResponse eng recs).length = recs.length ∧
    (uidsResponse eng recs).map Prod.fst = recs.map NodeRec.uid := by
  have hd : (recs.map NodeRec.uid).dedup = recs.map NodeRec.uid := List.dedup_eq_self.mpr hn
  refine ⟨?_, ?_, ?_⟩
  · simp [loadNodesGeneric, hs]
  · simp [uidsResponse, hd]
  · simp [uidsResponse, hd]

/-- Claim C3: for every node entity type (comments, playlists, users,
videos), loading N rows submits all N records as one mutation inside
one transaction, and a successful load returns a uids mapping with
exactly N generated identifiers, one per input row, keyed by the
temporary blank-node references of the rows.  The nodup hypothesis on
the references mirrors the no-duplicate-temporary-id premise of the
claim; the success hypothesis selects the successful-transaction case
the claim describes. -/
theorem C3_node_batch_single_txn :
    (∀ (eng : Engine) (rows : List CommentRow),
      eng.mres (Mutation.setNodes (nodeRecsFrom commentRec 1 rows)) = none →
      ((nodeRecsFrom commentRec 1 rows).map NodeRec.uid).Nodup →
      load_comments eng rows =
        ([Event.openTxn 0 false,
          Event.mutateEv 0 (Mutation.setNodes (nodeRecsFrom commentRec 1 rows)),
          Event.commitEv 0, Event.discardEv 0],
         .ok (uidsResponse eng (nodeRecsFrom commentRec 1 rows))) ∧
      (uidsResponse eng (nodeRecsFrom commentRec 1 rows)).length = rows.length ∧
      (uidsResponse eng (nodeRecsFrom commentRec 1 rows)).map Prod.fst =
        (nodeRecsFrom commentRec 1 rows).map NodeRec.uid) ∧
    (∀ (eng : Engine) (rows : List PlaylistRow),
      eng.mres (Mutation.setNodes (nodeRecsFrom playlistRec 1 rows)) = none →
      ((nodeRecsFrom playlistRec 1 rows).map NodeRec.uid).Nodup →
      load_playlists eng rows =
        ([Event.openTxn 0 false,
          Event.mutateEv 0 (Mutation.setNodes (nodeRecsFrom playlistRec 1 rows)),
          Event.commitEv 0, Event.discardEv 0],
         .ok (uidsResponse eng (nodeRecsFrom playlistRec 1 rows))) ∧
      (uidsResponse eng (nodeRecsFrom playlistRec 1 rows)).length = rows.length ∧
      (uidsResponse eng (nodeRecsFrom playlistRec 1 rows)).map Prod.fst =
        (nodeRecsFrom playlistRec 1 rows).map NodeRec.uid) ∧
    (∀ (eng : Engine) (rows : List UserRow),
      eng.mres (Mutation.setNodes (nodeRecsFrom userRec 1 rows)) = none →
      ((nodeRecsFrom userRec 1 rows).map NodeRec.uid).Nodup →
      load_users eng rows =
        ([Event.openTxn 0 false,
          Event.mutateEv 0 (Mutation.setNodes (nodeRecsFrom userRec 1 rows)),
          Event.commitEv 0, Event.discardEv 0],
         .ok (uidsResponse eng (nodeRecsFrom userRec 1 rows))) ∧
      (uidsResponse eng (nodeRecsFrom userRec 1 rows)).length = rows.length ∧
      (uidsResponse eng (nodeRecsFrom userRec 1 rows)).map Prod.fst =
        (nodeRecsFrom userRec 1 rows).map NodeRec.uid) ∧
    (∀ (eng : Engine) (rows : List VideoRow),
      eng.mres (Mutation.setNodes (nodeRecsFrom videoRec 1 rows)) = none →
      ((nodeRecsFrom videoRec 1 rows).map NodeRec.uid).Nodup →
      load_videos eng rows =
        ([Event.openTxn 0 false,
          Event.mutateEv 0 (Mutation.setNodes (nodeRecsFrom videoRec 1 rows)),
          Event.commitEv 0, Event.discardEv 0],
         .ok (uidsResponse eng (nodeRecsFrom videoRec 1 rows))) ∧
      (uidsResponse eng (nodeRecsFrom videoRec 1 rows)).length = rows.length ∧
      (uidsResponse eng (nodeRecsFrom videoRec 1 rows)).map Prod.fst =
        (nodeRecsFrom videoRec 1 rows).map NodeRec.uid) := by
  refine ⟨?_, ?_, ?_, ?_⟩ <;>
    · intro eng rows hs hn
      have h := loadNodes_success eng _ hs hn
      refine ⟨h.1, ?_, h.2.2⟩
      rw [h.2.1, nodeRecsFrom_length]

set_option maxRecDepth 4000 in
/-- Witness for C3: three concrete comment rows against the trivial
engine; the nodup and success hypotheses hold by computation. -/
theorem C3_node_batch_single_txn_witness :
    load_comments trivEng [⟨"x"⟩, ⟨"y"⟩, ⟨"z"⟩] =
      ([Event.openTxn 0 false,
        Event.mutateEv 0 (Mutation.setNodes (nodeRecsFrom commentRec 1 [⟨"x"⟩, ⟨"y"⟩, ⟨"z"⟩])),
        Event.commitEv 0, Event.discardEv 0],
       .ok (uidsResponse trivEng (nodeRecsFrom commentRec 1 [⟨"x"⟩, ⟨"y"⟩, ⟨"z"⟩]))) ∧
    (uidsResponse trivEng (nodeRecsFrom commentRec 1 [⟨"x"⟩, ⟨"y"⟩, ⟨"z"⟩])).length = 3 ∧
    (uidsResponse trivEng (nodeRecsFrom commentRec 1 [⟨"x"⟩, ⟨"y"⟩, ⟨"z"⟩])).map Prod.fst =
      (nodeRecsFrom commentRec 1 [⟨"x"⟩, ⟨"y"⟩, ⟨"z"⟩]).map NodeRec.uid :=
  C3_node_batch_single_txn.1 trivEng [⟨"x"⟩, ⟨"y"⟩, ⟨"z"⟩] (by rfl) (by decide)

/-- Claim C4, amended: endpoints are resolved by read-only lookup
queries whose identifier is taken from the first result; username
lookups use exact-match eq, and so do both comment-text lookups of
load_comment_replies_comment (the claim said comment-text lookups are
full-text; only the other loaders use anyoftext, as load_user_comments
shows here).  Stated for the two loaders cited by the claim: when both
responses decode to a non-empty result list whose first item carries a
non-null uid and the mutation succeeds, the row produces exactly the
two read-only lookups with the stated query texts and one edge
mutation built from the two first-result uids. -/
theorem C4_lookup_first_result :
    (∀ (eng : Engine) (r : CrcRow) (rest : List CrcRow) (k : Nat)
        (f1 m1 : List (String × Json)) (more1 : List Json) (u1 : Json)
        (f2 m2 : List (String × Json)) (more2 : List Json) (u2 : Json),
      jsonParse (eng.qresp (crc_comment_query r.comment_text)) = some (Json.obj f1) →
      objGet f1 "comment" = some (Json.arr (Json.obj m1 :: more1)) →
      objGet m1 "uid" = some u1 →
      u1.isNull = false →
      jsonParse (eng.qresp (crc_comment_query r.replied_to_text)) = some (Json.obj f2) →
      objGet f2 "comment" = some (Json.arr (Json.obj m2 :: more2)) →
      objGet m2 "uid" = some u2 →
      u2.isNull = false →
      eng.mres (Mutation.setEdge u2 "replies_to_c_c" u1) = none →
      load_comment_replies_comment eng (r :: rest) k =
        ⟨[Event.openTxn k true, Event.queryEv k (crc_comment_query r.comment_text),
          Event.openTxn (k + 1) true, Event.queryEv (k + 1) (crc_comment_query r.replied_to_text),
          Event.openTxn (k + 2) false,
          Event.mutateEv (k + 2) (Mutation.setEdge u2 "replies_to_c_c" u1),
          Event.commitEv (k + 2), Event.discardEv (k + 2)] ++
            (load_comment_replies_comment eng rest (k + 3)).events,
          (load_comment_replies_comment eng rest (k + 3)).warns,
          (load_comment_replies_comment eng rest (k + 3)).err⟩) ∧
    (∀ (eng : Engine) (r : UserCommentRow) (rest : List UserCommentRow) (k : Nat)
        (f1 m1 : List (String × Json)) (more1 : List Json) (u1 : Json)
        (f2 m2 : List (String × Json)) (more2 : List Json) (u2 : Json),
      jsonParse (eng.qresp (user_query r.username)) = some (Json.obj f1) →
      objGet f1 "user" = some (Json.arr (Json.obj m1 :: more1)) →
      objGet m1 "uid" = some u1 →
      u1.isNull = false →
      jsonParse (eng.qresp (anyoftext_comment_query r.comment_text)) = some (Json.obj f2) →
      objGet f2 "comment" = some (Json.arr (Json.obj m2 :: more2)) →
      objGet m2 "uid" = some u2 →
      u2.isNull = false →
      eng.mres (Mutation.setEdge u1 "comments" u2) = none →
      load_user_comments eng (r :: rest) k =
        ⟨[Event.openTxn k true, Event.queryEv k (user_query r.username),
          Event.openTxn (k + 1) true, Event.queryEv (k + 1) (anyoftext_comment_query r.comment_text),
          Event.openTxn (k + 2) false,
          Event.mutateEv (k + 2) (Mutation.setEdge u1 "comments" u2),
          Event.commitEv (k + 2), Event.discardEv (k + 2)] ++
            (load_user_comments eng rest (k + 3)).events,
          (load_user_comments eng rest (k + 3)).warns,
          (load_user_comments eng rest (k + 3)).err⟩) := by
  constructor
  · intro eng r rest k f1 m1 more1 u1 f2 m2 more2 u2 hp1 ho1 hu1 hn1 hp2 ho2 hu2 hn2 hm
    have e1 := firstUid_of_first_item _ "comment" f1 m1 more1 u1 hp1 ho1 hu1
    have e2 := firstUid_of_first_item _ "comment" f2 m2 more2 u2 hp2 ho2 hu2
    unfold load_comment_replies_comment
    simp [loadRelChecked, e1, e2, hn1, hn2, hm]
  · intro eng r rest k f1 m1 more1 u1 f2 m2 more2 u2 hp1 ho1 hu1 hn1 hp2 ho2 hu2 hn2 hm
    have e1 := firstUid_of_first_item _ "user" f1 m1 more1 u1 hp1 ho1 hu1
    have e2 := firstUid_of_first_item _ "comment" f2 m2 more2 u2 hp2 ho2 hu2
    unfold load_user_comments
    simp [loadRelChecked, e1, e2, hn1, hn2, hm]

set_option maxRecDepth 400000 in
/-- Counterexample for C4 as stated: the comment-text lookup query
built by load_comment_replies_comment is an exact-match eq query, not
a full-text anyoftext query (contrast the anyoftext query the other
comment-text loaders build); the trace of a run shows that this is the
query the loader issues. -/
theorem C4_counterexample :
    strContains (crc_comment_query "hola") "anyoftext" = false ∧
    strContains (crc_comment_query "hola") "eq(text" = true ∧
    strContains (anyoftext_comment_query "hola") "anyoftext" = true ∧
    (load_comment_replies_comment engZero [⟨"hola", "x"⟩] 0).events =
      [Event.openTxn 0 true, Event.queryEv 0 (crc_comment_query "hola")] :=
  ⟨by decide, by decide, by decide, by rfl⟩

set_option maxRecDepth 400000 in
/-- Witness for the amended C4: a concrete resolvable row against the
engine whose lookups answer with populated uid lists. -/
theorem C4_lookup_first_result_witness :
    load_comment_replies_comment engAll [⟨"a", "b"⟩] 0 =
      ⟨[Event.openTxn 0 true, Event.queryEv 0 (crc_comment_query "a"),
        Event.openTxn 1 true, Event.queryEv 1 (crc_comment_query "b"),
        Event.openTxn 2 false,
        Event.mutateEv 2 (Mutation.setEdge (Json.str "0xc1") "replies_to_c_c" (Json.str "0xc1")),
        Event.commitEv 2, Event.discardEv 2] ++
          (load_comment_replies_comment engAll [] 3).events,
        (load_comment_replies_comment engAll [] 3).warns,
        (load_comment_replies_comment engAll [] 3).err⟩ :=
  C4_lookup_first_result.1 engAll ⟨"a", "b"⟩ [] 0
    engAllFields [("uid", Json.str "0xc1")] [Json.obj [("uid", Json.str "0xc2")]] (Json.str "0xc1")
    engAllFields [("uid", Json.str "0xc1")] [Json.obj [("uid", Json.str "0xc2")]] (Json.str "0xc1")
    (by rfl) (by rfl) (by rfl) (by rfl) (by rfl) (by rfl) (by rfl) (by rfl) (by rfl)

/-- Claim C5: when at least one required source file is missing, the
full load reports one aggregated missing-files error carrying exactly
the absent paths, and attempts no load step (so no mutation is
issued); every absent required path is in the reported list. -/
theorem C5_preflight_missing_files :
    ∀ (fileExists : String → Bool) (stepRun : LoadStep → PyResult Unit),
      (∃ f ∈ requiredFiles, fileExists f = false) →
      create_data fileExists stepRun =
        ([], some (.fileNotFound (requiredFiles.filter (fun g => !fileExists g)))) ∧
      ∀ g ∈ requiredFiles, fileExists g = false →
        g ∈ requiredFiles.filter (fun g => !fileExists g) := by
  intro fe sr h
  obtain ⟨f, hf, hfe⟩ := h
  constructor
  · have hmem : f ∈ requiredFiles.filter (fun g => !fe g) :=
      List.mem_filter.mpr ⟨hf, by simp [hfe]⟩
    have hne : (requiredFiles.filter (fun g => !fe g)).isEmpty = false := by
      cases hl : requiredFiles.filter (fun g => !fe g) with
      | nil => rw [hl] at hmem; cases hmem
      | cons a t => rfl
    simp [create_data, hne]
  · intro g hg hge
    exact List.mem_filter.mpr ⟨hg, by simp [hge]⟩

/-- Witness for C5: comments.csv absent, every other file present. -/
theorem C5_preflight_missing_files_witness :
    create_data feNoComments srAllOk =
      ([], some (.fileNotFound (requiredFiles.filter (fun g => !feNoComments g)))) ∧
    ∀ g ∈ requiredFiles, feNoComments g = false →
      g ∈ requiredFiles.filter (fun g => !feNoComments g) :=
  C5_preflight_missing_files feNoComments srAllOk
    ⟨"data/nodes/comments.csv", by decide, by decide⟩

/-- The step runner attempts steps in order and stops at the first
raised exception: when an error comes out, some step at position n
raised it, every earlier step returned normally, and the attempted
list is exactly the steps up to and including position n. -/
theorem runSteps_spec (sr : LoadStep → PyResult Unit) :
    ∀ (steps : List LoadStep) (e : PyErr), (runSteps sr steps).2 = some e →
    ∃ n, ∃ hlt : n < steps.length,
      (runSteps sr steps).1 = steps.take (n + 1) ∧
      sr (steps.get ⟨n, hlt⟩) = .exn e ∧
      ∀ m (hm : m < n), sr (steps.get ⟨m, Nat.lt_trans hm hlt⟩) = .ok () := by
  intro steps
  induction steps with
  | nil => intro e h; simp [runSteps] at h
  | cons s rest ih =>
    intro e h
    cases hs : sr s with
    | exn e0 =>
      have h2 : runSteps sr (s :: rest) = ([s], some e0) := by simp [runSteps, hs]
      rw [h2] at h
      have he : e0 = e := by simpa using h
      refine ⟨0, by simp, ?_, ?_, ?_⟩
      · rw [h2]; rfl
      · rw [show (s :: rest).get ⟨0, by simp⟩ = s from rfl, hs, he]
      · intro m hm; exact absurd hm (Nat.not_lt_zero m)
    | ok v =>
      have h2 : runSteps sr (s :: rest) = (s :: (runSteps sr rest).1, (runSteps sr rest).2) := by
        simp [runSteps, hs]
      rw [h2] at h
      obtain ⟨n, hlt, h3, h4, h5⟩ := ih e h
      refine ⟨n + 1, by simpa using Nat.succ_lt_succ hlt, ?_, ?_, ?_⟩
      · rw [h2, List.take_succ_cons, ← h3]
      · exact h4
      · intro m hm
        cases m with
        | zero => rw [show (s :: rest).get ⟨0, by simp⟩ = s from rfl, hs]
        | succ m' => exact h5 m' (Nat.lt_of_succ_lt_succ hm)

/-- Claim C1, amended: when the pre-flight check passes and some load
step raises, create_data catches and logs the exception and returns
normally, but the run stops there: the attempted steps are exactly
those up to and including the first failing one, every earlier step
completed normally, and the later steps are not attempted (the claim
said every subsequent independent step is still executed; the single
try/except around all thirteen calls stops the run instead). -/
theorem C1_step_failure_stops_run :
    ∀ (fe : String → Bool) (sr : LoadStep → PyResult Unit) (e : PyErr),
      requiredFiles.all fe = true →
      (create_data fe sr).2 = some e →
      ∃ n, ∃ hlt : n < allLoadSteps.length,
        (create_data fe sr).1 = allLoadSteps.take (n + 1) ∧
        sr (allLoadSteps.get ⟨n, hlt⟩) = .exn e ∧
        ∀ m (hm : m < n), sr (allLoadSteps.get ⟨m, Nat.lt_trans hm hlt⟩) = .ok () := by
  intro fe sr e hall h
  have hfil : requiredFiles.filter (fun f => !fe f) = [] := by
    rw [List.filter_eq_nil_iff]
    intro a ha
    simp [List.all_eq_true.mp hall a ha]
  have hcd : create_data fe sr = runSteps sr allLoadSteps := by
    simp [create_data, hfil]
  rw [hcd] at h ⊢
  exact runSteps_spec sr allLoadSteps e h

/-- Counterexample for C1 as stated: with every file present and the
playlists step raising, the video load (and every later step) is not
attempted, though the exception is caught and logged.  The claim said
a playlists failure does not prevent the video load. -/
theorem C1_counterexample :
    (create_data feAll srFailPlaylists).1 = [LoadStep.comments, LoadStep.playlists] ∧
    LoadStep.videos ∉ (create_data feAll srFailPlaylists).1 ∧
    (create_data feAll srFailPlaylists).2 = some (.engineError 0) :=
  ⟨by decide, by decide, by decide⟩

/-- Witness for the amended C1: the same concrete failing run. -/
theorem C1_step_failure_stops_run_witness :
    ∃ n, ∃ hlt : n < allLoadSteps.length,
      (create_data feAll srFailPlaylists).1 = allLoadSteps.take (n + 1) ∧
      srFailPlaylists (allLoadSteps.get ⟨n, hlt⟩) = .exn (.engineError 0) ∧
      ∀ m (hm : m < n),
        srFailPlaylists (allLoadSteps.get ⟨m, Nat.lt_trans hm hlt⟩) = .ok () :=
  C1_step_failure_stops_run feAll srFailPlaylists (.engineError 0) (by decide) (by decide)

/-- The escaping applied by the query functions leaves no quote that
is not immediately preceded by a backslash, whatever precedes the
interpolated fragment. -/
theorem escapeChars_quotes_preceded :
    ∀ (l : List Char) (prev : Option Char), quotesPreceded prev (escapeChars l) = true := by
  intro l
  induction l with
  | nil => intro prev; rfl
  | cons c t ih =>
    intro prev
    by_cases hc : c = '"'
    · subst hc
      simp [escapeChars, quotesPreceded, ih]
    · simp [escapeChars, quotesPreceded, hc, ih]

/-- Claim C6, amended: the query operations query_by_text and
query_video_posters_reverse escape every embedded double quote of
their user-supplied string parameter before interpolating it (the
interpolated fragment holds no quote that is not immediately preceded
by a backslash), but delete_comment interpolates its user-supplied
term without escaping (the claim said every query or delete operation
escapes). -/
theorem C6_quote_escaping (s : String) :
    query_by_text_q s =
      "\x7b comments(func: anyoftext(text, \"" ++ escapeQuotes s ++ "\")) \x7b uid text \x7d \x7d" ∧
    query_video_posters_reverse_q s =
      "\x7b video_posters(func: eq(title, \"" ++ escapeQuotes s ++
        "\")) \x7b uid title ~posts \x7b uid username \x7d \x7d \x7d" ∧
    quotesPreceded none (escapeQuotes s).data = true ∧
    delete_comment_q s =
      "\x7b comments(func: anyoftext(text, \"" ++ s ++ "\")) \x7b uid \x7d \x7d" :=
  ⟨rfl, rfl, escapeChars_quotes_preceded s.data none, rfl⟩

/-- Counterexample for C6 as stated: delete_comment does not escape
its parameter at all: no fixed prefix and suffix make its query the
interpolation of the escaped parameter, because a parameter consisting
of one double quote would have to grow by one character. -/
theorem C6_counterexample :
    ¬ ∃ pre post : String, ∀ s : String, delete_comment_q s = pre ++ escapeQuotes s ++ post := by
  rintro ⟨pre, post, h⟩
  have h1 := h "A"
  have h2 := h "\""
  have l1 : (delete_comment_q "A").length = pre.length + (escapeQuotes "A").length + post.length := by
    rw [h1]; simp [String.length_append]
  have l2 : (delete_comment_q "\"").length =
      pre.length + (escapeQuotes "\"").length + post.length := by
    rw [h2]; simp [String.length_append]
  have e1 : (escapeQuotes "A").length = 1 := by decide
  have e2 : (escapeQuotes "\"").length = 2 := by decide
  have e3 : (delete_comment_q "A").length = (delete_comment_q "\"").length := by decide
  omega

/-- Claim C7, amended: delete_comment deletes every matched comment in
one mutation inside one write transaction, prints the count it is
deleting, and returns None on that path (the claim said it returns the
count); when nothing matched it prints a nothing-matched message and
returns 0.  Stated for any engine response that decodes to a comments
list whose uid extraction succeeds. -/
theorem C7_delete_by_term :
    ∀ (eng : Engine) (t : String) (fields : List (String × Json))
      (items : List Json) (us : List Json),
      jsonParse (eng.qresp (delete_comment_q t)) = some (Json.obj fields) →
      objGet fields "comments" = some (Json.arr items) →
      collectUids items = .ok us →
      ((us = [] →
          delete_comment eng t =
            ⟨[Event.openTxn 0 true, Event.queryEv 0 (delete_comment_q t), Event.discardEv 0],
              [.noneFound t], .ok (some 0)⟩) ∧
        (us ≠ [] → eng.mres (Mutation.delNodes us) = none →
          delete_comment eng t =
            ⟨[Event.openTxn 0 true, Event.queryEv 0 (delete_comment_q t), Event.discardEv 0,
              Event.openTxn 1 false, Event.mutateEv 1 (Mutation.delNodes us),
              Event.commitEv 1, Event.discardEv 1],
              [.deleting us.length t], .ok none⟩)) := by
  intro eng t fields items us hp ho hc
  have hu : delete_comment_uids eng t = .ok us := by
    unfold delete_comment_uids
    rw [hp]
    simp [pyGetD, ho, pyIter, hc]
  constructor
  · intro h0
    subst h0
    unfold delete_comment
    rw [hu]
    rfl
  · intro hne hm
    have hemp : us.isEmpty = false := by
      cases us with
      | nil => exact absurd rfl hne
      | cons a l => rfl
    unfold delete_comment
    rw [hu]
    simp [hemp, hm]

set_option maxRecDepth 400000 in
/-- Counterexample for C7 as stated, on the delete-by-term example of
the spec: with comments hello world, hello there and goodbye, the term
hello fulltext-matches exactly the first two (uids 0x1 and 0x2), the
engine reports those two, delete_comment deletes exactly them in one
mutation and prints a count of 2, but its return value is None, not
the count 2 the claim requires. -/
theorem C7_counterexample :
    (c7store.filter (fun p => anyTermMatches "hello" p.2)).map Prod.fst = ["0x1", "0x2"] ∧
    jsonParse (c7eng.qresp (delete_comment_q "hello")) =
      some (Json.obj [("comments",
        Json.arr [Json.obj [("uid", Json.str "0x1")], Json.obj [("uid", Json.str "0x2")]])]) ∧
    delete_comment c7eng "hello" =
      ⟨[Event.openTxn 0 true, Event.queryEv 0 (delete_comment_q "hello"), Event.discardEv 0,
        Event.openTxn 1 false,
        Event.mutateEv 1 (Mutation.delNodes [Json.str "0x1", Json.str "0x2"]),
        Event.commitEv 1, Event.discardEv 1],
        [.deleting 2 "hello"], .ok none⟩ ∧
    (delete_comment c7eng "hello").result ≠ .ok (some 2) :=
  ⟨by rfl, by rfl, by rfl,
    by rw [show (delete_comment c7eng "hello").result = .ok none from rfl]; decide⟩

set_option maxRecDepth 400000 in
/-- Witness for the amended C7: the concrete two-match run. -/
theorem C7_delete_by_term_witness :
    delete_comment c7eng "hello" =
      ⟨[Event.openTxn 0 true, Event.queryEv 0 (delete_comment_q "hello"), Event.discardEv 0,
        Event.openTxn 1 false,
        Event.mutateEv 1 (Mutation.delNodes [Json.str "0x1", Json.str "0x2"]),
        Event.commitEv 1, Event.discardEv 1],
        [.deleting 2 "hello"], .ok none⟩ :=
  (C7_delete_by_term c7eng "hello"
    [("comments", Json.arr [Json.obj [("uid", Json.str "0x1")], Json.obj [("uid", Json.str "0x2")]])]
    [Json.obj [("uid", Json.str "0x1")], Json.obj [("uid", Json.str "0x2")]]
    [Json.str "0x1", Json.str "0x2"]
    (by rfl) (by rfl) (by rfl)).2 (by simp) (by rfl)

/-- A release in a trace is still a release after prepending events. -/
theorem releasedIn_append_right (E tr : List Event) (id : Nat) (h : releasedIn tr id) :
    releasedIn (E ++ tr) id := by
  rcases h with h | h
  · exact Or.inl (List.mem_append.mpr (Or.inr h))
  · exact Or.inr (List.mem_append.mpr (Or.inr h))

/-- Every write transaction opened by the checked-shape relationship
loader is released in its trace (by the finally discard); only the
read-only lookup transactions lack a release. -/
theorem relChecked_rw_released {ρ : Type}
    (eng : Engine) (q1 : ρ → String) (key1 : String) (w1 : ρ → SkipWarning)
    (q2 : ρ → String) (key2 : String) (w2 : ρ → SkipWarning)
    (mkMut : Json → Json → Mutation) :
    ∀ (rows : List ρ) (k id : Nat),
      Event.openTxn id false ∈ (loadRelChecked eng q1 key1 w1 q2 key2 w2 mkMut rows k).events →
      releasedIn (loadRelChecked eng q1 key1 w1 q2 key2 w2 mkMut rows k).events id := by
  intro rows
  induction rows with
  | nil => intro k id h; cases h
  | cons r rest ih =>
    intro k id h
    cases h1 : (_first_uid_from_query (eng.qresp (q1 r)) key1).isNull with
    | true =>
      have hev : (loadRelChecked eng q1 key1 w1 q2 key2 w2 mkMut (r :: rest) k).events =
          [Event.openTxn k true, Event.queryEv k (q1 r)] ++
            (loadRelChecked eng q1 key1 w1 q2 key2 w2 mkMut rest (k + 1)).events := by
        simp [loadRelChecked, h1]
      rw [hev] at h ⊢
      rcases List.mem_append.mp h with h | h
      · exact absurd h (by simp)
      · exact releasedIn_append_right _ _ _ (ih (k + 1) id h)
    | false =>
      cases h2 : (_first_uid_from_query (eng.qresp (q2 r)) key2).isNull with
      | true =>
        have hev : (loadRelChecked eng q1 key1 w1 q2 key2 w2 mkMut (r :: rest) k).events =
            [Event.openTxn k true, Event.queryEv k (q1 r),
             Event.openTxn (k + 1) true, Event.queryEv (k + 1) (q2 r)] ++
              (loadRelChecked eng q1 key1 w1 q2 key2 w2 mkMut rest (k + 2)).events := by
          simp [loadRelChecked, h1, h2]
        rw [hev] at h ⊢
        rcases List.mem_append.mp h with h | h
        · exact absurd h (by simp)
        · exact releasedIn_append_right _ _ _ (ih (k + 2) id h)
      | false =>
        cases h3 : eng.mres (mkMut (_first_uid_from_query (eng.qresp (q1 r)) key1)
            (_first_uid_from_query (eng.qresp (q2 r)) key2)) with
        | some er =>
          have hev : (loadRelChecked eng q1 key1 w1 q2 key2 w2 mkMut (r :: rest) k).events =
              [Event.openTxn k true, Event.queryEv k (q1 r),
               Event.openTxn (k + 1) true, Event.queryEv (k + 1) (q2 r),
               Event.openTxn (k + 2) false,
               Event.mutateEv (k + 2) (mkMut (_first_uid_from_query (eng.qresp (q1 r)) key1)
                 (_first_uid_from_query (eng.qresp (q2 r)) key2)),
               Event.discardEv (k + 2)] := by
            simp [loadRelChecked, h1, h2, h3]
          rw [hev] at h ⊢
          simp only [List.mem_cons, List.not_mem_nil, or_false] at h
          rcases h with h | h | h | h | h | h | h
          · exact absurd h (by simp)
          · exact absurd h (by simp)
          · exact absurd h (by simp)
          · exact absurd h (by simp)
          · obtain ⟨rfl, -⟩ := Event.openTxn.inj h
            exact Or.inr (by simp)
          · exact absurd h (by simp)
          · exact absurd h (by simp)
        | none =>
          have hev : (loadRelChecked eng q1 key1 w1 q2 key2 w2 mkMut (r :: rest) k).events =
              [Event.openTxn k true, Event.queryEv k (q1 r),
               Event.openTxn (k + 1) true, Event.queryEv (k + 1) (q2 r),
               Event.openTxn (k + 2) false,
               Event.mutateEv (k + 2) (mkMut (_first_uid_from_query (eng.qresp (q1 r)) key1)
                 (_first_uid_from_query (eng.qresp (q2 r)) key2)),
               Event.commitEv (k + 2), Event.discardEv (k + 2)] ++
                (loadRelChecked eng q1 key1 w1 q2 key2 w2 mkMut rest (k + 3)).events := by
            simp [loadRelChecked, h1, h2, h3]
          rw [hev] at h ⊢
          rcases List.mem_append.mp h with h | h
          · simp only [List.mem_cons, List.not_mem_nil, or_false] at h
            rcases h with h | h | h | h | h | h | h | h
            · exact absurd h (by simp)
            · exact absurd h (by simp)
            · exact absurd h (by simp)
            · exact absurd h (by simp)
            · obtain ⟨rfl, -⟩ := Event.openTxn.inj h
              exact Or.inr (List.mem_append.mpr (Or.inl (by simp)))
            · exact absurd h (by simp)
            · exact absurd h (by simp)
            · exact absurd h (by simp)
          · exact releasedIn_append_right _ _ _ (ih (k + 3) id h)

/-- Every write transaction opened by the eager-shape relationship
loader is released in its trace (by the finally discard); only the
read-only lookup transactions lack a release. -/
theorem relEager_rw_released {ρ : Type}
    (eng : Engine) (q1 : ρ → String) (key1 : String) (w1 : ρ → SkipWarning)
    (q2 : ρ → String) (key2 : String) (w2 : ρ → SkipWarning)
    (mkMut : Json → Json → Mutation) :
    ∀ (rows : List ρ) (k id : Nat),
      Event.openTxn id false ∈ (loadRelEager eng q1 key1 w1 q2 key2 w2 mkMut rows k).events →
      releasedIn (loadRelEager eng q1 key1 w1 q2 key2 w2 mkMut rows k).events id := by
  intro rows
  induction rows with
  | nil => intro k id h; cases h
  | cons r rest ih =>
    intro k id h
    cases h1 : (_first_uid_from_query (eng.qresp (q1 r)) key1).isNull with
    | true =>
      have hev : (loadRelEager eng q1 key1 w1 q2 key2 w2 mkMut (r :: rest) k).events =
          [Event.openTxn k true, Event.queryEv k (q1 r),
           Event.openTxn (k + 1) true, Event.queryEv (k + 1) (q2 r)] ++
            (loadRelEager eng q1 key1 w1 q2 key2 w2 mkMut rest (k + 2)).events := by
        simp [loadRelEager, h1]
      rw [hev] at h ⊢
      rcases List.mem_append.mp h with h | h
      · exact absurd h (by simp)
      · exact releasedIn_append_right _ _ _ (ih (k + 2) id h)
    | false =>
      cases h2 : (_first_uid_from_query (eng.qresp (q2 r)) key2).isNull with
      | true =>
        have hev : (loadRelEager eng q1 key1 w1 q2 key2 w2 mkMut (r :: rest) k).events =
            [Event.openTxn k true, Event.queryEv k (q1 r),
             Event.openTxn (k + 1) true, Event.queryEv (k + 1) (q2 r)] ++
              (loadRelEager eng q1 key1 w1 q2 key2 w2 mkMut rest (k + 2)).events := by
          simp [loadRelEager, h1, h2]
        rw [hev] at h ⊢
        rcases List.mem_append.mp h with h | h
        · exact absurd h (by simp)
        · exact releasedIn_append_right _ _ _ (ih (k + 2) id h)
      | false =>
        cases h3 : eng.mres (mkMut (_first_uid_from_query (eng.qresp (q1 r)) key1)
            (_first_uid_from_query (eng.qresp (q2 r)) key2)) with
        | some er =>
          have hev : (loadRelEager eng q1 key1 w1 q2 key2 w2 mkMut (r :: rest) k).events =
              [Event.openTxn k true, Event.queryEv k (q1 r),
               Event.openTxn (k + 1) true, Event.queryEv (k + 1) (q2 r),
               Event.openTxn (k + 2) false,
               Event.mutateEv (k + 2) (mkMut (_first_uid_from_query (eng.qresp (q1 r)) key1)
                 (_first_uid_from_query (eng.qresp (q2 r)) key2)),
               Event.discardEv (k + 2)] := by
            simp [loadRelEager, h1, h2, h3]
          rw [hev] at h ⊢
          simp only [List.mem_cons, List.not_mem_nil, or_false] at h
          rcases h with h | h | h | h | h | h | h
          · exact absurd h (by simp)
          · exact absurd h (by simp)
          · exact absurd h (by simp)
          · exact absurd h (by simp)
          · obtain ⟨rfl, -⟩ := Event.openTxn.inj h
            exact Or.inr (by simp)
          · exact absurd h (by simp)
          · exact absurd h (by simp)
        | none =>
          have hev : (loadRelEager eng q1 key1 w1 q2 key2 w2 mkMut (r :: rest) k).events =
              [Event.openTxn k true, Event.queryEv k (q1 r),
               Event.openTxn (k + 1) true, Event.queryEv (k + 1) (q2 r),
               Event.openTxn (k + 2) false,
               Event.mutateEv (k + 2) (mkMut (_first_uid_from_query (eng.qresp (q1 r)) key1)
                 (_first_uid_from_query (eng.qresp (q2 r)) key2)),
               Event.commitEv (k + 2), Event.discardEv (k + 2)] ++
                (loadRelEager eng q1 key1 w1 q2 key2 w2 mkMut rest (k + 3)).events := by
            simp [loadRelEager, h1, h2, h3]
          rw [hev] at h ⊢
          rcases List.mem_append.mp h with h | h
          · simp only [List.mem_cons, List.not_mem_nil, or_false] at h
            rcases h with h | h | h | h | h | h | h | h
            · exact absurd h (by simp)
            · exact absurd h (by simp)
            · exact absurd h (by simp)
            · exact absurd h (by simp)
            · obtain ⟨rfl, -⟩ := Event.openTxn.inj h
              exact Or.inr (List.mem_append.mpr (Or.inl (by simp)))
            · exact absurd h (by simp)
            · exact absurd h (by simp)
            · exact absurd h (by simp)
          · exact releasedIn_append_right _ _ _ (ih (k + 3) id h)

/-- Claim C8, amended: every transaction opened by the embedded
operations is released (committed or discarded) in the trace on every
exit path — for the node loaders, the query service and delete_comment
this holds for all transactions, and for the relationship loaders it
holds for their write transactions; the per-row read-only lookup
transactions of the relationship loaders are exempted, because the
source opens them without any commit or discard (the claim said every
operation releases every transaction). -/
theorem C8_txn_release :
    (∀ (eng : Engine) (recs : List NodeRec) (id : Nat) (ro : Bool),
      Event.openTxn id ro ∈ (loadNodesGeneric eng recs).1 →
      releasedIn (loadNodesGeneric eng recs).1 id) ∧
    (∀ (eng : Engine) (q key : String) (id : Nat) (ro : Bool),
      Event.openTxn id ro ∈ (queryGeneric eng q key).1 →
      releasedIn (queryGeneric eng q key).1 id) ∧
    (∀ (eng : Engine) (t : String) (id : Nat) (ro : Bool),
      Event.openTxn id ro ∈ (delete_comment eng t).events →
      releasedIn (delete_comment eng t).events id) ∧
    (∀ {ρ : Type} (eng : Engine) (q1 : ρ → String) (key1 : String) (w1 : ρ → SkipWarning)
        (q2 : ρ → String) (key2 : String) (w2 : ρ → SkipWarning)
        (mkMut : Json → Json → Mutation) (rows : List ρ) (k id : Nat),
      Event.openTxn id false ∈ (loadRelChecked eng q1 key1 w1 q2 key2 w2 mkMut rows k).events →
      releasedIn (loadRelChecked eng q1 key1 w1 q2 key2 w2 mkMut rows k).events id) ∧
    (∀ {ρ : Type} (eng : Engine) (q1 : ρ → String) (key1 : String) (w1 : ρ → SkipWarning)
        (q2 : ρ → String) (key2 : String) (w2 : ρ → SkipWarning)
        (mkMut : Json → Json → Mutation) (rows : List ρ) (k id : Nat),
      Event.openTxn id false ∈ (loadRelEager eng q1 key1 w1 q2 key2 w2 mkMut rows k).events →
      releasedIn (loadRelEager eng q1 key1 w1 q2 key2 w2 mkMut rows k).events id) := by
  refine ⟨?_, ?_, ?_, ?_, ?_⟩
  · intro eng recs id ro h
    cases hm : eng.mres (Mutation.setNodes recs) with
    | some er =>
      have hev : (loadNodesGeneric eng recs).1 =
          [Event.openTxn 0 false, Event.mutateEv 0 (Mutation.setNodes recs),
           Event.discardEv 0] := by
        simp [loadNodesGeneric, hm]
      rw [hev] at h ⊢
      simp only [List.mem_cons, List.not_mem_nil, or_false] at h
      rcases h with h | h | h
      · obtain ⟨rfl, -⟩ := Event.openTxn.inj h
        exact Or.inr (by simp)
      · exact absurd h (by simp)
      · exact absurd h (by simp)
    | none =>
      have hev : (loadNodesGeneric eng recs).1 =
          [Event.openTxn 0 false, Event.mutateEv 0 (Mutation.setNodes recs),
           Event.commitEv 0, Event.discardEv 0] := by
        simp [loadNodesGeneric, hm]
      rw [hev] at h ⊢
      simp only [List.mem_cons, List.not_mem_nil, or_false] at h
      rcases h with h | h | h | h
      · obtain ⟨rfl, -⟩ := Event.openTxn.inj h
        exact Or.inr (by simp)
      · exact absurd h (by simp)
      · exact absurd h (by simp)
      · exact absurd h (by simp)
  · intro eng q key id ro h
    have hev : (queryGeneric eng q key).1 =
        [Event.openTxn 0 true, Event.queryEv 0 q, Event.discardEv 0] := rfl
    rw [hev] at h ⊢
    simp only [List.mem_cons, List.not_mem_nil, or_false] at h
    rcases h with h | h | h
    · obtain ⟨rfl, -⟩ := Event.openTxn.inj h
      exact Or.inr (by simp)
    · exact absurd h (by simp)
    · exact absurd h (by simp)
  · intro eng t id ro h
    cases hu : delete_comment_uids eng t with
    | exn e =>
      have hev : (delete_comment eng t).events =
          [Event.openTxn 0 true, Event.queryEv 0 (delete_comment_q t), Event.discardEv 0] := by
        simp [delete_comment, hu]
      rw [hev] at h ⊢
      simp only [List.mem_cons, List.not_mem_nil, or_false] at h
      rcases h with h | h | h
      · obtain ⟨rfl, -⟩ := Event.openTxn.inj h
        exact Or.inr (by simp)
      · exact absurd h (by simp)
      · exact absurd h (by simp)
    | ok uids =>
      cases uids with
      | nil =>
        have hev : (delete_comment eng t).events =
            [Event.openTxn 0 true, Event.queryEv 0 (delete_comment_q t), Event.discardEv 0] := by
          simp [delete_comment, hu]
        rw [hev] at h ⊢
        simp only [List.mem_cons, List.not_mem_nil, or_false] at h
        rcases h with h | h | h
        · obtain ⟨rfl, -⟩ := Event.openTxn.inj h
          exact Or.inr (by simp)
        · exact absurd h (by simp)
        · exact absurd h (by simp)
      | cons a l =>
        cases hm : eng.mres (Mutation.delNodes (a :: l)) with
        | some er =>
          have hev : (delete_comment eng t).events =
              [Event.openTxn 0 true, Event.queryEv 0 (delete_comment_q t), Event.discardEv 0,
               Event.openTxn 1 false, Event.mutateEv 1 (Mutation.delNodes (a :: l)),
               Event.discardEv 1] := by
            simp [delete_comment, hu, hm]
          rw [hev] at h ⊢
          simp only [List.mem_cons, List.not_mem_nil, or_false] at h
          rcases h with h | h | h | h | h | h
          · obtain ⟨rfl, -⟩ := Event.openTxn.inj h
            exact Or.inr (by simp)
          · exact absurd h (by simp)
          · exact absurd h (by simp)
          · obtain ⟨rfl, -⟩ := Event.openTxn.inj h
            exact Or.inr (by simp)
          · exact absurd h (by simp)
          · exact absurd h (by simp)
        | none =>
          have hev : (delete_comment eng t).events =
              [Event.openTxn 0 true, Event.queryEv 0 (delete_comment_q t), Event.discardEv 0,
               Event.openTxn 1 false, Event.mutateEv 1 (Mutation.delNodes (a :: l)),
               Event.commitEv 1, Event.discardEv 1] := by
            simp [delete_comment, hu, hm]
          rw [hev] at h ⊢
          simp only [List.mem_cons, List.not_mem_nil, or_false] at h
          rcases h with h | h | h | h | h | h | h
          · obtain ⟨rfl, -⟩ := Event.openTxn.inj h
            exact Or.inr (by simp)
          · exact absurd h (by simp)
          · exact absurd h (by simp)
          · obtain ⟨rfl, -⟩ := Event.openTxn.inj h
            exact Or.inr (by simp)
          · exact absurd h (by simp)
          · exact absurd h (by simp)
          · exact absurd h (by simp)
  · intro ρ eng q1 key1 w1 q2 key2 w2 mkMut rows k id h
    exact relChecked_rw_released eng q1 key1 w1 q2 key2 w2 mkMut rows k id h
  · intro ρ eng q1 key1 w1 q2 key2 w2 mkMut rows k id h
    exact relEager_rw_released eng q1 key1 w1 q2 key2 w2 mkMut rows k id h

set_option maxRecDepth 400000 in
/-- Counterexample for C8 as stated: the read-only lookup transaction
opened for the first endpoint of a comment-replies-comment row is
never committed nor discarded — the trace of the run holds its open
event and no release event for it. -/
theorem C8_counterexample :
    Event.openTxn 0 true ∈ (load_comment_replies_comment engZero [⟨"c", "d"⟩] 0).events ∧
    Event.commitEv 0 ∉ (load_comment_replies_comment engZero [⟨"c", "d"⟩] 0).events ∧
    Event.discardEv 0 ∉ (load_comment_replies_comment engZero [⟨"c", "d"⟩] 0).events := by
  have hev : (load_comment_replies_comment engZero [⟨"c", "d"⟩] 0).events =
      [Event.openTxn 0 true, Event.queryEv 0 (crc_comment_query "c")] := by rfl
  refine ⟨?_, ?_, ?_⟩ <;> rw [hev] <;> simp

/-- Witness for the amended C8: the write transaction of a concrete
empty-batch node load is released. -/
theorem C8_txn_release_witness :
    releasedIn (loadNodesGeneric trivEng []).1 0 :=
  C8_txn_release.1 trivEng [] 0 false
    (by rw [show (loadNodesGeneric trivEng []).1 =
          [Event.openTxn 0 false, Event.mutateEv 0 (Mutation.setNodes []),
           Event.commitEv 0, Event.discardEv 0] from rfl]
        simp)

/-- Claim C9: when either pagination input fails integer parsing, the
menu substitutes the fallback pair first = 2, offset = 0, and the
paged-videos query is still executed with that pair (its query event
is in the trace of the run). -/
theorem C9_pagination_fallback :
    ∀ (eng : Engine) (first offset : String),
      (pyInt first = none ∨ pyInt offset = none) →
      pagedChoice first offset = (2, 0) ∧
      Event.queryEv 0 (query_videos_paged_q 2 0) ∈
        (query_videos_paged eng (pagedChoice first offset).1 (pagedChoice first offset).2).1 := by
  intro eng first offset h
  have hc : pagedChoice first offset = (2, 0) := by
    unfold pagedChoice
    rcases h with h | h
    · rw [h]
    · rw [h]
      cases hpf : pyInt first with
      | none => rfl
      | some a => rfl
  refine ⟨hc, ?_⟩
  rw [hc]
  simp [query_videos_paged, queryGeneric]

/-- Witness for C9: a non-numeric first input with a numeric offset. -/
theorem C9_pagination_fallback_witness :
    pagedChoice "abc" "7" = (2, 0) ∧
    Event.queryEv 0 (query_videos_paged_q 2 0) ∈
      (query_videos_paged trivEng (pagedChoice "abc" "7").1 (pagedChoice "abc" "7").2).1 :=
  C9_pagination_fallback trivEng "abc" "7" (Or.inl (by rfl))
